import Mathlib

/-!
Verification development for the `local-music-generator` backend control plane.

The definitions below are a shallow embedding, in Lean 4, of the Python code
under `backend/models/` (resource_monitor.py, notification_system.py,
music_generator.py, model_manager.py).  Python floats are modelled as `Rat`,
Python ints as `Int`/`Nat`, Python strings as `String`, and `collections.deque`
with `maxlen` as a list whose append drops the oldest excess entries.
Fallible operations return `Except`/`Option`; OS reads that may raise are
modelled by an `Option` input (`none` = the read raised).
-/

/-! ## Bounded deque (`collections.deque(maxlen = cap)`)

`resource_monitor.py` line 104 keeps `resource_history` in a
`deque(maxlen=history_size)`; an `append` past capacity silently evicts the
oldest element.  `dequeAppend` reproduces that: append, then drop from the
front whatever exceeds the capacity. -/

def dequeAppend (cap : Nat) (xs : List α) (x : α) : List α :=
  (xs ++ [x]).drop (xs.length + 1 - cap)

/-! ## ResourceSnapshot and the sampler (`resource_monitor.py`)

`ResourceSnapshot` (lines 35-54) with `datetime` timestamps modelled as `Rat`
(seconds).  `_get_current_snapshot` (lines 163-225) reads the OS counters; any
exception yields the zeroed default snapshot.  The OS reads are modelled by an
`Option OsCounters` argument: `none` means reading a counter raised. -/

structure ResourceSnapshot where
  timestamp : Rat
  cpu_percent : Rat
  memory_percent : Rat
  memory_used_mb : Int
  memory_total_mb : Int
  disk_percent : Rat
  disk_used_gb : Rat
  disk_total_gb : Rat
  gpu_memory_used_mb : Option Int := none
  gpu_memory_total_mb : Option Int := none
  gpu_utilization : Option Rat := none
  model_memory_mb : Int := 0
  inference_count : Int := 0
  deriving Repr, DecidableEq

structure OsCounters where
  cpu_percent : Rat
  memory_percent : Rat
  memory_used_mb : Int
  memory_total_mb : Int
  disk_percent : Rat
  disk_used_gb : Rat
  disk_total_gb : Rat
  gpu_memory_used_mb : Option Int
  gpu_memory_total_mb : Option Int
  gpu_utilization : Option Rat
  deriving Repr, DecidableEq

/-- The zeroed default snapshot built in the `except` branch of
`_get_current_snapshot` (lines 216-225). -/
def defaultSnapshot (now : Rat) : ResourceSnapshot :=
  { timestamp := now
    cpu_percent := 0
    memory_percent := 0
    memory_used_mb := 0
    memory_total_mb := 0
    disk_percent := 0
    disk_used_gb := 0
    disk_total_gb := 0 }

/-- `ResourceMonitor._get_current_snapshot` (lines 163-225).  `reading = none`
models the `except` path in which any of the psutil calls raised. -/
def getCurrentSnapshot (reading : Option OsCounters) (now : Rat)
    (totalInferences : Int) : ResourceSnapshot :=
  match reading with
  | some c =>
      { timestamp := now
        cpu_percent := c.cpu_percent
        memory_percent := c.memory_percent
        memory_used_mb := c.memory_used_mb
        memory_total_mb := c.memory_total_mb
        disk_percent := c.disk_percent
        disk_used_gb := c.disk_used_gb
        disk_total_gb := c.disk_total_gb
        gpu_memory_used_mb := c.gpu_memory_used_mb
        gpu_memory_total_mb := c.gpu_memory_total_mb
        gpu_utilization := c.gpu_utilization
        inference_count := totalInferences }
  | none => defaultSnapshot now

/-- The mutable monitor state touched by one iteration of `_monitor_loop`
(lines 305-331): the bounded history and the `_last_snapshot` cache. -/
structure MonitorState where
  history_size : Nat
  resource_history : List ResourceSnapshot
  last_snapshot : Option ResourceSnapshot
  total_inferences : Int
  deriving Repr

/-- One iteration of `ResourceMonitor._monitor_loop` (lines 309-325): sample a
snapshot, append it to the bounded history, cache it as `_last_snapshot`.
Threshold checks and performance-metric updates do not touch the history. -/
def monitorStep (st : MonitorState) (reading : Option OsCounters) (now : Rat) :
    MonitorState :=
  let snapshot := getCurrentSnapshot reading now st.total_inferences
  { st with
    resource_history := dequeAppend st.history_size st.resource_history snapshot
    last_snapshot := some snapshot }

/-- `ResourceMonitor.get_current_status` (lines 407-428): reuse
`_last_snapshot` when present, otherwise sample one and cache it.  Returns the
snapshot whose fields the method serializes, plus the updated cache. -/
def getCurrentStatus (last : Option ResourceSnapshot)
    (reading : Option OsCounters) (now : Rat) (totalInferences : Int) :
    ResourceSnapshot × Option ResourceSnapshot :=
  match last with
  | none =>
      let snapshot := getCurrentSnapshot reading now totalInferences
      (snapshot, some snapshot)
  | some s => (s, some s)

/-! ## Trend analysis (`resource_monitor.py`, `get_resource_trend`, lines 521-612)

The metric name is a `String`, exactly as in the source: `cpu`, `memory` and
`disk` select a per-snapshot percentage; `gpu` additionally requires a truthy
(Python sense: non-`None`, non-zero) `gpu_memory_used_mb` on EVERY window
snapshot, and any other name — or a gpu query hitting a snapshot without gpu
data — aborts with the "Unsupported resource type" error (lines 566-570).
Timestamps are seconds, `minutes` is the query window, and `monitor_interval`
is the sampling interval in seconds (default `1.0`).  Python's display-only
`round(_, 2)` / `round(_, 3)` on the returned numbers is not modelled: all
comparisons and the classification in the source use the unrounded values,
and `Rat` already stands in for the inexact `float`. -/

structure TrendAnalysis where
  trend : String
  change_rate : Rat
  current_value : Rat
  prediction_10min : Rat
  average : Rat
  maximum : Rat
  minimum : Rat
  volatility : Rat
  data_points : Nat
  deriving Repr, DecidableEq

inductive TrendResult where
  | noHistory
  | insufficientData
  | unsupportedType (resource_type : String)
  | ok (a : TrendAnalysis)
  deriving Repr, DecidableEq

/-- Lines 576-611 of `get_resource_trend`: the arithmetic on the extracted
value series.  `10 * 60 // monitor_interval` is Python float floor
division. -/
def computeTrend (vals : List Rat) (monitor_interval : Rat) : TrendResult :=
  match vals with
  | v0 :: v1 :: vs =>
      let values := v0 :: v1 :: vs
      let start_value := v0
      let end_value := values.getLast (by simp)
      let change_rate := (end_value - start_value) / (values.length : Rat)
      let trend :=
        if |change_rate| < 1/10 then "stable"
        else if change_rate > 0 then "increasing"
        else "decreasing"
      let prediction_steps : Rat := ((10 * 60 : Rat) / monitor_interval).floor
      let predicted_value :=
        max 0 (min 100 (end_value + change_rate * prediction_steps))
      let avg_value := values.sum / (values.length : Rat)
      let max_value := (v1 :: vs).foldl max v0
      let min_value := (v1 :: vs).foldl min v0
      TrendResult.ok
        { trend := trend
          change_rate := change_rate
          current_value := end_value
          prediction_10min := predicted_value
          average := avg_value
          maximum := max_value
          minimum := min_value
          volatility := max_value - min_value
          data_points := values.length }
  | _ => TrendResult.insufficientData

/-- Python truthiness of an `Optional[int]` field: `None` and `0` are
falsy. -/
def pyTruthy : Option Int → Bool
  | none => false
  | some n => n != 0

/-- One iteration of the extraction loop of `get_resource_trend`
(lines 558-570): `some` the selected metric value, or `none` for the early
`return {"error": "Unsupported resource type: ..."}` — reached both for an
unknown metric name and for a `gpu` query on a snapshot whose
`gpu_memory_used_mb` is falsy.  For a truthy gpu reading,
`gpu_percent = used / total * 100` when `gpu_memory_total_mb` is truthy,
else `0` (line 567). -/
def extractValue (resource_type : String) (s : ResourceSnapshot) : Option Rat :=
  if resource_type = "cpu" then some s.cpu_percent
  else if resource_type = "memory" then some s.memory_percent
  else if resource_type = "disk" then some s.disk_percent
  else if resource_type = "gpu" ∧ pyTruthy s.gpu_memory_used_mb then
    some (if pyTruthy s.gpu_memory_total_mb
      then (s.gpu_memory_used_mb.getD 0 : Rat) /
        (s.gpu_memory_total_mb.getD 0 : Rat) * 100
      else 0)
  else none

/-- The extraction loop over the whole window (lines 555-570): the list of
metric values in window order, or `none` as soon as one snapshot hits the
early "Unsupported resource type" return. -/
def extractValues (resource_type : String) :
    List ResourceSnapshot → Option (List Rat)
  | [] => some []
  | s :: rest =>
      match extractValue resource_type s with
      | none => none
      | some v =>
          match extractValues resource_type rest with
          | none => none
          | some vs => some (v :: vs)

/-- `ResourceMonitor.get_resource_trend` (lines 521-612): empty history is
its own error; then the window filter `timestamp >= now - timedelta(minutes)`
(line 540-544); fewer than 2 window samples reports insufficient data
(line 546); then the extraction loop, whose early return yields the
"Unsupported resource type" error, and on success the arithmetic of
lines 576-611 (`computeTrend`).  The `if not resource_values` guard of
line 572 is unreachable: the window has at least 2 snapshots and every loop
iteration either appends a value or returns. -/
def getResourceTrend (history : List ResourceSnapshot) (resource_type : String)
    (now minutes monitor_interval : Rat) : TrendResult :=
  if history.isEmpty then TrendResult.noHistory
  else
    let cutoff_time := now - minutes * 60
    let recent_data := history.filter (fun s => cutoff_time ≤ s.timestamp)
    if recent_data.length < 2 then TrendResult.insufficientData
    else
      match extractValues resource_type recent_data with
      | none => TrendResult.unsupportedType resource_type
      | some resource_values => computeTrend resource_values monitor_interval

/-! ## Notification rules (`notification_system.py`)

`NotificationRule` (lines 74-136).  The metrics map is abstracted to a type
parameter fed to the rule's predicate; `datetime.now()` becomes an explicit
`now : Rat` (minutes, so that `timedelta(minutes=cooldown)` is just the
`cooldown_minutes` number).  The predicate is total here, so the
`try/except` around `condition_func` (lines 109-113) has no failing branch. -/

structure NotificationRule (M : Type) where
  name : String
  cooldown_minutes : Nat
  enabled : Bool
  condition_func : M → Bool
  last_triggered : Option Rat

/-- `NotificationRule.should_trigger` (lines 97-113). -/
def shouldTrigger (r : NotificationRule M) (now : Rat) (data : M) : Bool :=
  if !r.enabled then false
  else if h : r.last_triggered.isSome then
    let time_since_last := now - r.last_triggered.get h
    if time_since_last < (r.cooldown_minutes : Rat) then false
    else r.condition_func data
  else r.condition_func data

/-- The `last_triggered = datetime.now()` stamp inside
`NotificationRule.create_notification` (line 125). -/
def stampTriggered (r : NotificationRule M) (now : Rat) : NotificationRule M :=
  { r with last_triggered := some now }

/-- One rule's part of `NotificationSystem.check_and_notify` (lines 369-374):
test `should_trigger`; on true, `create_notification` stamps the firing time.
Returns the updated rule and whether it fired. -/
def evalRule (r : NotificationRule M) (now : Rat) (data : M) :
    NotificationRule M × Bool :=
  if shouldTrigger r now data then (stampTriggered r now, true)
  else (r, false)

/-- The times at which a rule fires when `check_and_notify` runs on every
tick of the given `(time, metrics)` sequence. -/
def firedTimes (r : NotificationRule M) : List (Rat × M) → List Rat
  | [] => []
  | (t, d) :: rest =>
      let step := evalRule r t d
      if step.2 then t :: firedTimes step.1 rest
      else firedTimes step.1 rest

/-! ## Parameter validation (`music_generator.py`, `ParameterValidator`)

Lines 268-388.  Inputs are typed: the numeric parameters arrive as `Rat`
(Python numbers), so the `int(value)` / `float(value)` conversions cannot
raise and `valid` can only be falsified by the empty-prompt check.  Python's
`int()` truncates toward zero.  Warnings and applied defaults are recorded as
structured values rather than the Chinese format strings of the source. -/

def pySpace (c : Char) : Bool :=
  c == ' ' || c == '\t' || c == '\n' || c == '\r' ||
    c == Char.ofNat 11 || c == Char.ofNat 12

/-- Python `str.strip()` on the underlying character list. -/
def pyStripList (l : List Char) : List Char :=
  ((l.dropWhile pySpace).reverse.dropWhile pySpace).reverse

/-- Python `str.strip()`. -/
def pyStrip (s : String) : String := ⟨pyStripList s.data⟩

/-- Python `int()` on a number: truncation toward zero. -/
def pyInt (q : Rat) : Int := if q < 0 then Int.ceil q else Int.floor q

inductive ParamName where
  | duration
  | guidance_scale
  | temperature
  | top_k
  | top_p
  | sample_rate
  deriving Repr, DecidableEq

inductive ParamWarning where
  | belowMin (name : ParamName)
  | aboveMax (name : ParamName)
  | unsupportedSampleRate (given closest : Int)
  | unsupportedFormat (given : String)
  deriving Repr, DecidableEq

/-- The raw parameter map handed to `validate_parameters`: `none` models a
missing dict key. -/
structure ParamsIn where
  duration : Option Rat := none
  guidance_scale : Option Rat := none
  temperature : Option Rat := none
  top_k : Option Rat := none
  top_p : Option Rat := none
  sample_rate : Option Rat := none
  output_format : Option String := none
  prompt : Option String := none
  deriving Repr, DecidableEq

/-- The `cleaned_params` dict.  `prompt` stays optional: the source only adds
the key when the prompt is non-empty after stripping. -/
structure CleanedParams where
  duration : Rat
  guidance_scale : Rat
  temperature : Rat
  top_k : Int
  top_p : Rat
  sample_rate : Int
  output_format : String
  prompt : Option String
  deriving Repr, DecidableEq

structure FieldClean (α : Type) where
  value : α
  warning : Option ParamWarning := none
  defaulted : Bool := false
  deriving Repr, DecidableEq

/-- `_validate_single_parameter` for a float-range parameter (lines 370-382),
plus the missing-key default branch of `validate_parameters` (lines 317-321).  -/
def cleanFloat (name : ParamName) (pv : Option Rat) (minv maxv dflt : Rat) :
    FieldClean Rat :=
  match pv with
  | some v =>
      if v < minv then { value := minv, warning := some (.belowMin name) }
      else if v > maxv then { value := maxv, warning := some (.aboveMax name) }
      else { value := v }
  | none => { value := dflt, defaulted := true }

/-- `_validate_single_parameter` for the integer parameter `top_k`
(lines 356-368), plus the missing-key default branch. -/
def cleanIntParam (name : ParamName) (pv : Option Rat) (minv maxv dflt : Int) :
    FieldClean Int :=
  match pv with
  | some v =>
      let iv := pyInt v
      if iv < minv then { value := minv, warning := some (.belowMin name) }
      else if iv > maxv then { value := maxv, warning := some (.aboveMax name) }
      else { value := iv }
  | none => { value := dflt, defaulted := true }

def allowedSampleRates : List Int := [16000, 22050, 32000, 44100, 48000]

/-- Python `min(allowed, key=lambda x: abs(x - value))`: the first element of
minimal distance wins ties. -/
def pyMinByDistance (v : Int) : List Int → Int
  | [] => 0
  | a :: rest => rest.foldl (fun best x => if |x - v| < |best - v| then x else best) a

/-- `_validate_single_parameter` for `sample_rate` (lines 346-354), plus the
missing-key default branch. -/
def cleanSampleRate (pv : Option Rat) : FieldClean Int :=
  match pv with
  | some v =>
      let iv := pyInt v
      if allowedSampleRates.contains iv then { value := iv }
      else
        let closest := pyMinByDistance iv allowedSampleRates
        { value := closest, warning := some (.unsupportedSampleRate iv closest) }
  | none => { value := 32000, defaulted := true }

def supportedFormats : List String := ["wav", "mp3", "flac"]

structure ValidationResult where
  valid : Bool
  warnings : List ParamWarning
  cleaned_params : CleanedParams
  applied_defaults : List ParamName
  deriving Repr, DecidableEq

/-- `ParameterValidator.validate_parameters` (lines 286-339): clean each
ranged parameter in the dict order of `parameter_ranges`, falling back to the
documented default when the key is missing; snap an unsupported
`output_format` to `"wav"` with a warning; reject an empty (post-strip)
prompt, otherwise store the stripped prompt. -/
def validate_parameters (params : ParamsIn) : ValidationResult :=
  let d := cleanFloat .duration params.duration 1 30 10
  let g := cleanFloat .guidance_scale params.guidance_scale 1 10 3
  let t := cleanFloat .temperature params.temperature (1/10) 2 1
  let k := cleanIntParam .top_k params.top_k 1 1000 250
  let p := cleanFloat .top_p params.top_p 0 1 0
  let sr := cleanSampleRate params.sample_rate
  let fmt := params.output_format.getD "wav"
  let fmtOk := supportedFormats.contains fmt
  let promptStripped := pyStrip (params.prompt.getD "")
  let promptOk := promptStripped ≠ ""
  { valid := promptOk
    warnings :=
      [d.warning, g.warning, t.warning, k.warning, p.warning, sr.warning].filterMap id
        ++ (if fmtOk then [] else [ParamWarning.unsupportedFormat fmt])
    cleaned_params :=
      { duration := d.value
        guidance_scale := g.value
        temperature := t.value
        top_k := k.value
        top_p := p.value
        sample_rate := sr.value
        output_format := if fmtOk then fmt else "wav"
        prompt := if promptOk then some promptStripped else none }
    applied_defaults :=
      [(ParamName.duration, d.defaulted), (.guidance_scale, g.defaulted),
        (.temperature, t.defaulted), (.top_k, k.defaulted),
        (.top_p, p.defaulted), (.sample_rate, sr.defaulted)].filterMap
        (fun nb => if nb.2 then some nb.1 else none) }

/-- Reading the `cleaned_params` dict back as a raw parameter map, for
re-validation. -/
def CleanedParams.toParams (c : CleanedParams) : ParamsIn :=
  { duration := some c.duration
    guidance_scale := some c.guidance_scale
    temperature := some c.temperature
    top_k := some (c.top_k : Rat)
    top_p := some c.top_p
    sample_rate := some (c.sample_rate : Rat)
    output_format := some c.output_format
    prompt := c.prompt }

/-! ## Prompt processing (`music_generator.py`, `PromptProcessor`, lines 118-247)

Python's `kw in s` substring test becomes infix search on the character
lists; `str.lower()` becomes `String.toLower` (all keywords are ASCII). -/

def containsSub (hay needle : String) : Bool := decide (needle.data <:+: hay.data)

/-- Python `str.lower()` (all keywords compared here are ASCII). -/
def pyLower (s : String) : String := ⟨s.data.map Char.toLower⟩

def harmfulKeywords : List String := ["violence", "hate", "explicit", "inappropriate"]

inductive PromptError where
  | empty
  | tooShort
  | tooLong
  | harmful (keyword : String)
  deriving Repr, DecidableEq

/-- `PromptProcessor.validate_prompt` (lines 151-183). -/
def validate_prompt (prompt : String) : List PromptError :=
  if pyStrip prompt = "" then [.empty]
  else
    let p := pyStrip prompt
    let lengthErrors :=
      (if p.length < 3 then [PromptError.tooShort] else [])
        ++ (if p.length > 500 then [PromptError.tooLong] else [])
    let lower := pyLower p
    lengthErrors ++ harmfulKeywords.filterMap
      (fun kw => if containsSub lower kw then some (PromptError.harmful kw) else none)

def styleKeywords : List (String × List String) :=
  [("classical", ["classical", "piano", "violin", "orchestra", "symphony", "chamber"]),
   ("jazz", ["jazz", "swing", "blues", "saxophone", "trumpet", "improvisation"]),
   ("rock", ["rock", "guitar", "drums", "electric", "heavy", "metal"]),
   ("electronic", ["electronic", "synth", "techno", "house", "ambient", "edm"]),
   ("folk", ["folk", "acoustic", "traditional", "country", "bluegrass"]),
   ("pop", ["pop", "catchy", "mainstream", "radio", "commercial"]),
   ("ambient", ["ambient", "atmospheric", "peaceful", "meditative", "calm"]),
   ("cinematic", ["cinematic", "epic", "dramatic", "orchestral", "soundtrack"])]

def moodKeywords : List (String × List String) :=
  [("happy", ["happy", "joyful", "cheerful", "upbeat", "energetic"]),
   ("sad", ["sad", "melancholy", "sorrowful", "emotional", "touching"]),
   ("calm", ["calm", "peaceful", "relaxing", "serene", "tranquil"]),
   ("energetic", ["energetic", "dynamic", "powerful", "intense", "driving"]),
   ("mysterious", ["mysterious", "dark", "enigmatic", "haunting"]),
   ("romantic", ["romantic", "love", "tender", "intimate", "gentle"])]

/-- `PromptProcessor._detect_styles` (lines 216-225). -/
def detectStyles (prompt : String) : List String :=
  let lower := pyLower prompt
  styleKeywords.filterMap
    (fun sk => if sk.2.any (containsSub lower) then some sk.1 else none)

/-- `PromptProcessor._detect_moods` (lines 227-236). -/
def detectMoods (prompt : String) : List String :=
  let lower := pyLower prompt
  moodKeywords.filterMap
    (fun mk => if mk.2.any (containsSub lower) then some mk.1 else none)

def musicStarters : List String :=
  ["music", "song", "melody", "tune", "composition", "piece"]

/-- `PromptProcessor.enhance_prompt` (lines 185-214). -/
def enhance_prompt (prompt : String) : String :=
  if pyStrip prompt = "" then prompt
  else
    let enhanced := pyStrip prompt
    let enhanced :=
      if (detectStyles enhanced).isEmpty && (detectMoods enhanced).isEmpty then
        "melodic and harmonious " ++ enhanced
      else enhanced
    if musicStarters.any (containsSub (pyLower enhanced)) then enhanced
    else "music with " ++ enhanced

/-! ## Generation tasks (`music_generator.py`, `GenerationRequest` and
`MusicGenerator`)

`GenerationRequest` (lines 48-116) keeps the fields the claims talk about;
timestamps and the uuid are externalized (the id is a parameter of
`generate_music`).  The result path computed by `_generate_music_sync` is
abstracted to an opaque non-`none` value. -/

inductive GenerationStatus where
  | pending
  | processing
  | completed
  | failed
  | cancelled
  deriving Repr, DecidableEq

def GenerationStatus.isTerminal : GenerationStatus → Bool
  | .completed => true
  | .failed => true
  | .cancelled => true
  | _ => false

structure GenerationRequest where
  prompt : String
  duration : Rat
  guidance_scale : Rat
  temperature : Rat
  top_k : Int
  top_p : Rat
  sample_rate : Int
  output_format : String
  status : GenerationStatus := .pending
  progress : Rat := 0
  error_message : Option String := none
  result_path : Option String := none
  cancelled : Bool := false
  deriving Repr, DecidableEq

/-- `GenerationRequest.cancel` (lines 108-112): set the flag, and move to
`CANCELLED` only from `PENDING`/`PROCESSING`. -/
def GenerationRequest.cancel (r : GenerationRequest) : GenerationRequest :=
  let r1 : GenerationRequest := { r with cancelled := true }
  if r1.status = .pending ∨ r1.status = .processing then
    { r1 with status := .cancelled }
  else r1

structure MusicGeneratorState where
  active_requests : List (String × GenerationRequest) := []
  completed_requests : List (String × GenerationRequest) := []
  deriving Repr, DecidableEq

inductive SubmitError where
  | invalidParameters
  | invalidPrompt (errors : List PromptError)
  | modelNotReady
  deriving Repr, DecidableEq

structure SubmitArgs where
  prompt : String
  duration : Rat := 10
  guidance_scale : Rat := 3
  temperature : Rat := 1
  top_k : Rat := 250
  top_p : Rat := 0
  sample_rate : Rat := 32000
  output_format : String := "wav"
  deriving Repr, DecidableEq

/-- `MusicGenerator.generate_music` (lines 413-509): validate and clean the
parameters, validate then enhance the prompt, check model readiness, and on
success register the new `PENDING` request in `active_requests` and hand it to
the async worker.  Every raise becomes an `Except.error`.  There is no
concurrency gate anywhere on this path: the size or contents of
`active_requests` are never consulted. -/
def submitParams (args : SubmitArgs) : ParamsIn :=
  { duration := some args.duration
    guidance_scale := some args.guidance_scale
    temperature := some args.temperature
    top_k := some args.top_k
    top_p := some args.top_p
    sample_rate := some args.sample_rate
    output_format := some args.output_format
    prompt := some args.prompt }

def generate_music (st : MusicGeneratorState) (args : SubmitArgs)
    (request_id : String) (model_ready : Bool) :
    Except SubmitError (String × MusicGeneratorState) :=
  let vr := validate_parameters (submitParams args)
  if !vr.valid then .error .invalidParameters
  else
    let c := vr.cleaned_params
    let req : GenerationRequest :=
      { prompt := c.prompt.getD args.prompt
        duration := c.duration
        guidance_scale := c.guidance_scale
        temperature := c.temperature
        top_k := c.top_k
        top_p := c.top_p
        sample_rate := c.sample_rate
        output_format := c.output_format }
    let promptErrors := validate_prompt req.prompt
    if promptErrors ≠ [] then .error (.invalidPrompt promptErrors)
    else
      let req := { req with prompt := enhance_prompt req.prompt }
      if !model_ready then .error .modelNotReady
      else
        .ok (request_id,
          { st with active_requests := st.active_requests ++ [(request_id, req)] })

def countProcessing (st : MusicGeneratorState) : Nat :=
  (st.active_requests.filter (fun kv => kv.2.status = .processing)).length

/-- `MusicGenerator.cancel_request` (lines 712-728). -/
def cancel_request (st : MusicGeneratorState) (request_id : String) :
    MusicGeneratorState × Bool :=
  if (st.active_requests.lookup request_id).isSome then
    ({ st with active_requests := (st.active_requests.map
        (fun kv => if kv.1 = request_id then (kv.1, kv.2.cancel) else kv)) }, true)
  else (st, false)

/-! ### The async worker on one task (`_generate_music_async`, lines 511-595)

The worker runs on the asyncio event loop, so it is atomic between `await`
points.  It has two atomic blocks: from entry to the pre-inference checkpoint
(there is no `await` between the `PROCESSING` assignment of line 518 and the
`is_cancelled` check of line 539), and the resumption after
`run_in_executor` returns.  `cancel_request` calls can interleave between
blocks; `engine_calls` counts invocations of the inference engine
(`model.generate` inside `_generate_music_sync`). -/

inductive WorkerPhase where
  | notStarted
  | awaitingEngine
  | done
  deriving Repr, DecidableEq

structure TaskRun where
  request : GenerationRequest
  phase : WorkerPhase := .notStarted
  engine_calls : Nat := 0
  deriving Repr, DecidableEq

/-- One worker resumption.  From `notStarted` (lines 517-548): mark
`PROCESSING`, progress 10, then either return at the checkpoint (cancelled)
or invoke the engine and suspend.  From `awaitingEngine`: on a normal engine
return (`_generate_music_sync` returns a path or raises, never a falsy
value), an uncancelled task completes (lines 550-559) and a cancelled one is
left untouched, discarding the result (lines 560-561); an engine exception
reaches the `except` handler (lines 567-569), which marks `FAILED` whether or
not the task was cancelled, and leaves `progress` alone. -/
def workerStep (engineOk : Bool) (s : TaskRun) : TaskRun :=
  match s.phase with
  | .notStarted =>
      let r : GenerationRequest :=
        { s.request with status := .processing, progress := 10 }
      if r.cancelled then { s with request := r, phase := .done }
      else
        { s with
            request := r
            phase := .awaitingEngine
            engine_calls := s.engine_calls + 1 }
  | .awaitingEngine =>
      let r := s.request
      let r1 : GenerationRequest :=
        if engineOk then
          if !r.cancelled then
            { r with
                status := .completed
                progress := 100
                result_path := some "generated.wav" }
          else r
        else
          { r with
              status := .failed
              error_message := some "inference failed" }
      { s with request := r1, phase := .done }
  | .done => s

inductive TaskAction where
  | cancel
  | worker (engineOk : Bool)
  deriving Repr, DecidableEq

def taskStep (s : TaskRun) : TaskAction → TaskRun
  | .cancel => { s with request := s.request.cancel }
  | .worker engineOk => workerStep engineOk s

def runTask (s : TaskRun) (acts : List TaskAction) : TaskRun :=
  acts.foldl taskStep s

/-- The task's status before and after each interleaved action. -/
def taskStatusTrace (s : TaskRun) : List TaskAction → List GenerationStatus
  | [] => [s.request.status]
  | a :: rest => s.request.status :: taskStatusTrace (taskStep s a) rest

/-! ## Model lifecycle (`model_manager.py`, `ModelManager`)

`load_model` (lines 153-230) and `unload_model` (lines 472-502) run under
`self._lock`, so each call is one serialized transaction; the statuses it
assigns along the way are collected in an emission list (they are observable
through the unlocked `get_model_status`).  The boolean inputs stand for the
outcomes of `is_model_supported`, `validate_model_requirements`,
`_check_system_resources`, `_load_model_sync` and `_cleanup_model`.  Captured
exception texts are abbreviated. -/

inductive ModelStatus where
  | not_loaded
  | loading
  | loaded
  | error
  | unloading
  deriving Repr, DecidableEq

structure ModelManagerState where
  status : ModelStatus
  error_message : Option String
  deriving Repr, DecidableEq

structure LoadInputs where
  supported : Bool
  requirements_ok : Bool
  resources_ok : Bool
  load_sync_ok : Bool
  deriving Repr, DecidableEq

/-- `ModelManager.load_model` (lines 153-230).  Note that the
`is_model_supported` / `validate_model_requirements` raises of lines 180-186
happen BEFORE `status` is set to `LOADING` (line 193); the `except` handler
of line 219 then moves straight to `ERROR`. -/
def load_model (s : ModelManagerState) (i : LoadInputs) :
    ModelManagerState × List ModelStatus :=
  if s.status = .loading then (s, [])
  else if s.status = .loaded then (s, [])
  else if !i.supported || !i.requirements_ok then
    ({ s with status := .error, error_message := some "requirements not met" },
      [.error])
  else
    let s1 : ModelManagerState := { status := .loading, error_message := none }
    if !i.resources_ok then
      ({ s1 with
          status := .error
          error_message := some "insufficient system resources" },
        [.loading, .error])
    else if !i.load_sync_ok then
      ({ s1 with status := .error, error_message := some "load failed" },
        [.loading, .error])
    else
      ({ s1 with status := .loaded }, [.loading, .loaded])

/-- `ModelManager.unload_model` (lines 472-502). -/
def unload_model (s : ModelManagerState) (cleanup_ok : Bool) :
    ModelManagerState × List ModelStatus :=
  if s.status = .not_loaded then (s, [])
  else
    let s1 : ModelManagerState := { s with status := ModelStatus.unloading }
    if cleanup_ok then
      ({ s1 with status := .not_loaded, error_message := none },
        [.unloading, .not_loaded])
    else
      ({ s1 with
          status := .error
          error_message := some "unload failed" },
        [.unloading, .error])

inductive ManagerOp where
  | load (i : LoadInputs)
  | unload (cleanup_ok : Bool)
  deriving Repr, DecidableEq

def managerStep (s : ModelManagerState) :
    ManagerOp → ModelManagerState × List ModelStatus
  | .load i => load_model s i
  | .unload ok => unload_model s ok

def initManager : ModelManagerState :=
  { status := .not_loaded, error_message := none }

/-- The statuses assigned, in order, by a sequence of manager operations. -/
def managerEmits (s : ModelManagerState) : List ManagerOp → List ModelStatus
  | [] => []
  | op :: rest =>
      let r := managerStep s op
      r.2 ++ managerEmits r.1 rest

/-- Every status the one process-wide `ModelInfo` ever holds, starting from
`NOT_LOADED`, along a sequence of (lock-serialized) operations. -/
def managerStatusTrace (ops : List ManagerOp) : List ModelStatus :=
  initManager.status :: managerEmits initManager ops

/-! ## Auxiliary definitions used by the statements below -/

/-- Iterated monitoring: one `monitorStep` per `(reading, time)` input. -/
def runMonitor (st : MonitorState) : List (Option OsCounters × Rat) → MonitorState
  | [] => st
  | (r, t) :: rest => runMonitor (monitorStep st r t) rest

/-- A history snapshot carrying only a timestamp and a CPU reading. -/
def mkSnap (t cpu : Rat) : ResourceSnapshot :=
  { defaultSnapshot t with cpu_percent := cpu }

/-- A history snapshot carrying gpu memory readings (MB). -/
def mkGpuSnap (t : Rat) (used total : Int) : ResourceSnapshot :=
  { defaultSnapshot t with
      gpu_memory_used_mb := some used
      gpu_memory_total_mb := some total }

/-- The transition edges of the model state machine as the spec documents
them.  This definition follows the SPEC's words — "NotLoaded → Loading →
{Loaded | Error}; Loaded → Unloading → NotLoaded; Error → Loading", with
Error additionally enterable from Unloading ("Error is entered only from
Loading or Unloading") — so that the embedded code can be compared against
it. -/
def claimedEdge : ModelStatus → ModelStatus → Bool
  | .not_loaded, .loading => true
  | .loading, .loaded => true
  | .loading, .error => true
  | .loaded, .unloading => true
  | .unloading, .not_loaded => true
  | .unloading, .error => true
  | .error, .loading => true
  | _, _ => false

/-- The transition edges the embedded manager actually takes: the documented
ones plus direct entry to Error on pre-validation failure (from NotLoaded or
Error) and unloading from Error. -/
def codeEdge (a b : ModelStatus) : Bool :=
  claimedEdge a b ||
    (a == .not_loaded && b == .error) ||
    (a == .error && b == .error) ||
    (a == .error && b == .unloading)

/-- Between two lock-serialized manager operations the status is never one of
the transient values. -/
def betweenOps (s : ModelManagerState) : Prop :=
  s.status ≠ .loading ∧ s.status ≠ .unloading

/-- A freshly submitted task, before its worker coroutine first runs. -/
def freshTask (r : GenerationRequest) : TaskRun := { request := r }

/-- A concrete freshly accepted request (status `PENDING`, flag clear), as
`generate_music` registers it. -/
def pendingRequest : GenerationRequest :=
  { prompt := "music with melodic and harmonious calm piano"
    duration := 10
    guidance_scale := 3
    temperature := 1
    top_k := 250
    top_p := 0
    sample_rate := 32000
    output_format := "wav" }

/-- A generator state with exactly one currently-Processing task. -/
def busyState : MusicGeneratorState :=
  { active_requests :=
      [("task-1", { pendingRequest with status := .processing, progress := 40 })] }

/-- A concrete always-firing rule (the shape of the default `cpu_warning`
rule of `_setup_default_rules`, with a trivially true predicate). -/
def alwaysRule : NotificationRule Unit :=
  { name := "cpu_warning"
    cooldown_minutes := 5
    enabled := true
    condition_func := fun _ => true
    last_triggered := none }

/-! # Theorems -/

/-- Folding `dequeAppend` over the insertions, starting empty, keeps exactly
the last `cap` insertions, in arrival order. -/
theorem dequeFold_eq_drop (cap : Nat) (l : List α) :
    l.foldl (dequeAppend cap) [] = l.drop (l.length - cap) := by
  induction l using List.reverseRecOn with
  | nil => simp
  | append_singleton l x ih =>
      rw [List.foldl_append, List.foldl_cons, List.foldl_nil, ih]
      unfold dequeAppend
      rcases le_or_lt l.length cap with h | h
      · have h1 : l.length - cap = 0 := Nat.sub_eq_zero_of_le h
        rw [h1]
        simp only [List.drop_zero, List.length_append, List.length_singleton]
      · have hlen : (l.drop (l.length - cap)).length = cap := by
          rw [List.length_drop]; omega
        rcases Nat.eq_zero_or_pos cap with hc | hc
        · subst hc
          simp [List.drop_length]
        · have h1 : 1 ≤ (l.drop (l.length - cap)).length := by omega
          have h2 : (l.drop (l.length - cap)).length + 1 - cap = 1 := by omega
          have h4 : (l ++ [x]).length - cap = l.length - cap + 1 := by
            rw [List.length_append, List.length_singleton]; omega
          rw [h2, h4, List.drop_append_of_le_length h1,
            List.drop_append_of_le_length
              (show l.length - cap + 1 ≤ l.length by omega),
            List.drop_drop]

theorem runMonitor_history (inputs : List (Option OsCounters × Rat)) :
    ∀ st : MonitorState, (runMonitor st inputs).resource_history =
      (inputs.map (fun p => getCurrentSnapshot p.1 p.2 st.total_inferences)).foldl
        (dequeAppend st.history_size) st.resource_history := by
  induction inputs with
  | nil => intro st; rfl
  | cons p rest ih =>
      intro st
      obtain ⟨r, t⟩ := p
      show (runMonitor (monitorStep st r t) rest).resource_history = _
      rw [ih (monitorStep st r t)]
      rfl

/-- **C7.**  The resource history never holds more than its configured
capacity of snapshots; each append past capacity evicts the oldest entry
first while preserving arrival order, so after `cap + K` insertions the size
equals `cap` and exactly the `K` oldest entries are gone. -/
theorem c7_resource_history_bounded_fifo (cap K : Nat) (n : Int)
    (inputs : List (Option OsCounters × Rat)) :
    (runMonitor ⟨cap, [], none, n⟩ inputs).resource_history.length ≤ cap ∧
    (inputs.length = cap + K →
      (runMonitor ⟨cap, [], none, n⟩ inputs).resource_history.length = cap ∧
      (runMonitor ⟨cap, [], none, n⟩ inputs).resource_history =
        (inputs.map (fun p => getCurrentSnapshot p.1 p.2 n)).drop K) := by
  have h := runMonitor_history inputs ⟨cap, [], none, n⟩
  rw [dequeFold_eq_drop] at h
  dsimp only at h
  rw [List.length_map] at h
  refine ⟨?_, fun hlen => ⟨?_, ?_⟩⟩
  · rw [h, List.length_drop, List.length_map]; omega
  · rw [h, List.length_drop, List.length_map, hlen]; omega
  · rw [h, hlen]
    congr 1
    omega

theorem c7_resource_history_bounded_fifo_witness :
    (runMonitor ⟨2, [], none, 0⟩
        [((none : Option OsCounters), (0:Rat)), (none, 1), (none, 2)]).resource_history.length = 2 ∧
    (runMonitor ⟨2, [], none, 0⟩
        [((none : Option OsCounters), (0:Rat)), (none, 1), (none, 2)]).resource_history =
      ([((none : Option OsCounters), (0:Rat)), (none, 1), (none, 2)].map
        (fun p => getCurrentSnapshot p.1 p.2 0)).drop 1 :=
  (c7_resource_history_bounded_fifo 2 1 0
    [((none : Option OsCounters), (0:Rat)), (none, 1), (none, 2)]).2 rfl

/-- **C10.**  The snapshot sampler is total: when reading the OS counters
raises, it returns a zeroed `ResourceSnapshot` with the current timestamp
rather than propagating or reusing the previous snapshot; the monitoring loop
appends that zeroed snapshot to the history (where trend computation reads
it), and the current-status accessor returns it as well. -/
theorem c10_sampler_total_on_failure :
    (∀ (now : Rat) (n : Int), getCurrentSnapshot none now n = defaultSnapshot now) ∧
    (∀ now : Rat, (defaultSnapshot now).timestamp = now ∧
      (defaultSnapshot now).cpu_percent = 0 ∧
      (defaultSnapshot now).memory_percent = 0 ∧
      (defaultSnapshot now).memory_used_mb = 0 ∧
      (defaultSnapshot now).memory_total_mb = 0 ∧
      (defaultSnapshot now).disk_percent = 0 ∧
      (defaultSnapshot now).disk_used_gb = 0 ∧
      (defaultSnapshot now).disk_total_gb = 0) ∧
    (∀ (st : MonitorState) (now : Rat),
      (monitorStep st none now).resource_history =
        dequeAppend st.history_size st.resource_history (defaultSnapshot now) ∧
      (monitorStep st none now).last_snapshot = some (defaultSnapshot now)) ∧
    (∀ (now : Rat) (n : Int),
      (getCurrentStatus none none now n).1 = defaultSnapshot now) :=
  ⟨fun _ _ => rfl,
   fun _ => ⟨rfl, rfl, rfl, rfl, rfl, rfl, rfl, rfl⟩,
   fun _ _ => ⟨rfl, rfl⟩,
   fun _ _ => rfl⟩

theorem foldl_max_spec (l : List Rat) : ∀ a : Rat,
    l.foldl max a ∈ a :: l ∧ a ≤ l.foldl max a ∧ ∀ v ∈ l, v ≤ l.foldl max a := by
  induction l with
  | nil => intro a; exact ⟨by simp, le_refl a, by simp⟩
  | cons x t ih =>
      intro a
      obtain ⟨hmem, hle, hall⟩ := ih (max a x)
      rw [List.foldl_cons]
      refine ⟨?_, le_trans (le_max_left a x) hle, ?_⟩
      · rcases List.mem_cons.mp hmem with h | h
        · rcases max_choice a x with hc | hc <;> rw [h, hc] <;> simp
        · exact List.mem_cons.mpr (Or.inr (List.mem_cons.mpr (Or.inr h)))
      · intro v hv
        rcases List.mem_cons.mp hv with h | h
        · rw [h]; exact le_trans (le_max_right a x) hle
        · exact hall v h

theorem foldl_min_spec (l : List Rat) : ∀ a : Rat,
    l.foldl min a ∈ a :: l ∧ l.foldl min a ≤ a ∧ ∀ v ∈ l, l.foldl min a ≤ v := by
  induction l with
  | nil => intro a; exact ⟨by simp, le_refl a, by simp⟩
  | cons x t ih =>
      intro a
      obtain ⟨hmem, hle, hall⟩ := ih (min a x)
      rw [List.foldl_cons]
      refine ⟨?_, le_trans hle (min_le_left a x), ?_⟩
      · rcases List.mem_cons.mp hmem with h | h
        · rcases min_choice a x with hc | hc <;> rw [h, hc] <;> simp
        · exact List.mem_cons.mpr (Or.inr (List.mem_cons.mpr (Or.inr h)))
      · intro v hv
        rcases List.mem_cons.mp hv with h | h
        · rw [h]; exact le_trans hle (min_le_right a x)
        · exact hall v h

theorem extractValues_length (resource_type : String) :
    ∀ (recent : List ResourceSnapshot) (vals : List Rat),
      extractValues resource_type recent = some vals →
      vals.length = recent.length := by
  intro recent
  induction recent with
  | nil =>
      intro vals h
      simp only [extractValues, Option.some.injEq] at h
      rw [← h]
      rfl
  | cons s rest ih =>
      intro vals h
      simp only [extractValues] at h
      cases hev : extractValue resource_type s with
      | none =>
          rw [hev] at h
          exact Option.noConfusion h
      | some v =>
          rw [hev] at h
          cases hrec : extractValues resource_type rest with
          | none =>
              rw [hrec] at h
              exact Option.noConfusion h
          | some vs =>
              rw [hrec] at h
              simp only [Option.some.injEq] at h
              rw [← h]
              simp [ih vs hrec]

theorem extractValues_cpu (l : List ResourceSnapshot) :
    extractValues "cpu" l = some (l.map (fun s => s.cpu_percent)) := by
  induction l with
  | nil => rfl
  | cons s rest ih =>
      simp [extractValues, extractValue, ih]

/-- **C8 counterexample.**  A gpu trend query over a 2-sample window whose
snapshots carry no gpu data (`gpu_memory_used_mb = None`, exactly what the
sampler's zeroed failure snapshots put into the history): despite the
2 samples, the extraction loop of `get_resource_trend` hits its early return
(lines 566-570) and the query reports an "Unsupported resource type" error
instead of computing `changeRate`, refuting "with ≥2 samples it returns
changeRate = (lastValue − firstValue) / sampleCount, ...". -/
theorem c8_counterexample :
    ([defaultSnapshot 0, defaultSnapshot 1].filter
      (fun s => (1 : Rat) - 30 * 60 ≤ s.timestamp)).length = 2 ∧
    getResourceTrend [defaultSnapshot 0, defaultSnapshot 1] "gpu" 1 30 1 =
      .unsupportedType "gpu" := by
  have hf : [defaultSnapshot 0, defaultSnapshot 1].filter
      (fun s => (1 : Rat) - 30 * 60 ≤ s.timestamp) =
      [defaultSnapshot 0, defaultSnapshot 1] := by
    norm_num [defaultSnapshot, List.filter]
  refine ⟨by rw [hf]; rfl, ?_⟩
  rw [getResourceTrend, if_neg (by exact Bool.false_ne_true)]
  show (if ([defaultSnapshot 0, defaultSnapshot 1].filter
      (fun s => (1 : Rat) - 30 * 60 ≤ s.timestamp)).length < 2
    then TrendResult.insufficientData
    else match extractValues "gpu" ([defaultSnapshot 0, defaultSnapshot 1].filter
        (fun s => (1 : Rat) - 30 * 60 ≤ s.timestamp)) with
      | none => TrendResult.unsupportedType "gpu"
      | some resource_values => computeTrend resource_values 1) = _
  rw [hf, if_neg (by norm_num),
    show extractValues "gpu" [defaultSnapshot 0, defaultSnapshot 1] = none
      from by decide]

/-- **C8 (amended).**  Trend computation over a window with fewer than 2
samples reports insufficient data.  With at least 2 samples, when the metric
extraction succeeds on every window snapshot (always the case for the cpu,
memory and disk metrics; for the gpu metric exactly when every snapshot has a
truthy `gpu_memory_used_mb`), the query returns
`changeRate = (lastValue − firstValue) / sampleCount`, classifies the
direction as stable when `|changeRate| < 0.1` and by the sign of `changeRate`
otherwise, returns the 10-minute-ahead linear projection clamped to
`[0, 100]`, and reports min, max, average and volatility (`max − min`) over
the window; when the extraction fails (a gpu query over a window containing a
snapshot without truthy gpu data, or an unknown metric name), the query
instead reports an "Unsupported resource type" error despite the ≥2-sample
window. -/
theorem c8_trend_computation (hist : List ResourceSnapshot)
    (resource_type : String) (now minutes interval : Rat) (vals : List Rat) :
    (hist.isEmpty = false →
      (hist.filter (fun s => now - minutes * 60 ≤ s.timestamp)).length < 2 →
      getResourceTrend hist resource_type now minutes interval =
        .insufficientData) ∧
    (hist.isEmpty = false →
      ¬ (hist.filter (fun s => now - minutes * 60 ≤ s.timestamp)).length < 2 →
      extractValues resource_type
        (hist.filter (fun s => now - minutes * 60 ≤ s.timestamp)) = some vals →
      getResourceTrend hist resource_type now minutes interval =
        computeTrend vals interval) ∧
    (hist.isEmpty = false →
      ¬ (hist.filter (fun s => now - minutes * 60 ≤ s.timestamp)).length < 2 →
      extractValues resource_type
        (hist.filter (fun s => now - minutes * 60 ≤ s.timestamp)) = none →
      getResourceTrend hist resource_type now minutes interval =
        .unsupportedType resource_type) ∧
    (∀ recent : List ResourceSnapshot,
      extractValues resource_type recent = some vals →
      vals.length = recent.length) ∧
    (2 ≤ vals.length → ∃ a, computeTrend vals interval = .ok a ∧
      a.change_rate = (vals.getLast?.getD 0 - vals.head?.getD 0) / (vals.length : Rat) ∧
      a.trend = (if |a.change_rate| < 1/10 then "stable"
        else if 0 < a.change_rate then "increasing" else "decreasing") ∧
      a.current_value = vals.getLast?.getD 0 ∧
      a.prediction_10min =
        max 0 (min 100 (vals.getLast?.getD 0 +
          a.change_rate * (((10 * 60 : Rat) / interval).floor : Rat))) ∧
      a.average = vals.sum / (vals.length : Rat) ∧
      a.maximum ∈ vals ∧ a.minimum ∈ vals ∧
      (∀ v ∈ vals, a.minimum ≤ v ∧ v ≤ a.maximum) ∧
      a.volatility = a.maximum - a.minimum ∧
      a.data_points = vals.length) := by
  refine ⟨?_, ?_, ?_, ?_, ?_⟩
  · intro hne hlt
    rw [getResourceTrend, if_neg (by rw [hne]; exact Bool.false_ne_true)]
    show (if (hist.filter (fun s => now - minutes * 60 ≤ s.timestamp)).length < 2
      then TrendResult.insufficientData
      else match extractValues resource_type
          (hist.filter (fun s => now - minutes * 60 ≤ s.timestamp)) with
        | none => TrendResult.unsupportedType resource_type
        | some resource_values => computeTrend resource_values interval) = _
    rw [if_pos hlt]
  · intro hne hge hext
    rw [getResourceTrend, if_neg (by rw [hne]; exact Bool.false_ne_true)]
    show (if (hist.filter (fun s => now - minutes * 60 ≤ s.timestamp)).length < 2
      then TrendResult.insufficientData
      else match extractValues resource_type
          (hist.filter (fun s => now - minutes * 60 ≤ s.timestamp)) with
        | none => TrendResult.unsupportedType resource_type
        | some resource_values => computeTrend resource_values interval) = _
    rw [if_neg hge, hext]
  · intro hne hge hext
    rw [getResourceTrend, if_neg (by rw [hne]; exact Bool.false_ne_true)]
    show (if (hist.filter (fun s => now - minutes * 60 ≤ s.timestamp)).length < 2
      then TrendResult.insufficientData
      else match extractValues resource_type
          (hist.filter (fun s => now - minutes * 60 ≤ s.timestamp)) with
        | none => TrendResult.unsupportedType resource_type
        | some resource_values => computeTrend resource_values interval) = _
    rw [if_neg hge, hext]
  · intro recent hext
    exact extractValues_length resource_type recent vals hext
  · intro hge
    match vals, hge with
    | v0 :: v1 :: vs, _ =>
      obtain ⟨hmaxmem, hmaxle, hmaxall⟩ := foldl_max_spec (v1 :: vs) v0
      obtain ⟨hminmem, hminle, hminall⟩ := foldl_min_spec (v1 :: vs) v0
      refine ⟨_, rfl, ?_, ?_, ?_, ?_, ?_, ?_, ?_, ?_, ?_, ?_⟩
      all_goals try rfl
      all_goals try exact hmaxmem
      all_goals try exact hminmem
      intro v hv
      rcases List.mem_cons.mp hv with h | h
      · exact ⟨h ▸ hminle, h ▸ hmaxle⟩
      · exact ⟨hminall v h, hmaxall v h⟩

theorem c8_trend_computation_witness :
    getResourceTrend [mkSnap 0 0] "cpu" 0 0 1 = .insufficientData ∧
    getResourceTrend [mkSnap 0 0, mkSnap 10 20] "cpu" 10 30 1 =
      computeTrend [(0 : Rat), 20] 1 ∧
    getResourceTrend [mkGpuSnap 0 1024 4096, mkGpuSnap 10 2048 4096]
      "gpu" 10 30 1 = computeTrend [(25 : Rat), 50] 1 ∧
    getResourceTrend [defaultSnapshot 0, defaultSnapshot 1] "temp" 1 30 1 =
      .unsupportedType "temp" ∧
    ∃ a, computeTrend [(0 : Rat), 20] 1 = .ok a ∧
      a.change_rate =
        (([(0 : Rat), 20].getLast?.getD 0 - [(0 : Rat), 20].head?.getD 0) /
          (([(0 : Rat), 20].length : Nat) : Rat)) := by
  refine ⟨?_, ?_, ?_, ?_, ?_⟩
  · refine (c8_trend_computation [mkSnap 0 0] "cpu" 0 0 1 []).1 rfl ?_
    norm_num [mkSnap, defaultSnapshot, List.filter]
  · have hf : [mkSnap 0 0, mkSnap 10 20].filter
        (fun s => (10 : Rat) - 30 * 60 ≤ s.timestamp) =
        [mkSnap 0 0, mkSnap 10 20] := by
      norm_num [mkSnap, defaultSnapshot, List.filter]
    refine (c8_trend_computation [mkSnap 0 0, mkSnap 10 20] "cpu" 10 30 1
      [(0 : Rat), 20]).2.1 rfl (by rw [hf]; norm_num) ?_
    rw [hf, extractValues_cpu]
    simp [mkSnap, defaultSnapshot]
  · have hf : [mkGpuSnap 0 1024 4096, mkGpuSnap 10 2048 4096].filter
        (fun s => (10 : Rat) - 30 * 60 ≤ s.timestamp) =
        [mkGpuSnap 0 1024 4096, mkGpuSnap 10 2048 4096] := by
      norm_num [mkGpuSnap, defaultSnapshot, List.filter]
    refine (c8_trend_computation [mkGpuSnap 0 1024 4096, mkGpuSnap 10 2048 4096]
      "gpu" 10 30 1 [(25 : Rat), 50]).2.1 rfl (by rw [hf]; norm_num) ?_
    have h1 : extractValue "gpu" (mkGpuSnap 0 1024 4096) = some 25 := by
      rw [extractValue, if_neg (by decide), if_neg (by decide), if_neg (by decide),
        if_pos (by decide), if_pos (by decide)]
      norm_num [mkGpuSnap, defaultSnapshot]
    have h2 : extractValue "gpu" (mkGpuSnap 10 2048 4096) = some 50 := by
      rw [extractValue, if_neg (by decide), if_neg (by decide), if_neg (by decide),
        if_pos (by decide), if_pos (by decide)]
      norm_num [mkGpuSnap, defaultSnapshot]
    rw [hf]
    simp only [extractValues, h1, h2]
  · have hf : [defaultSnapshot 0, defaultSnapshot 1].filter
        (fun s => (1 : Rat) - 30 * 60 ≤ s.timestamp) =
        [defaultSnapshot 0, defaultSnapshot 1] := by
      norm_num [defaultSnapshot, List.filter]
    refine (c8_trend_computation [defaultSnapshot 0, defaultSnapshot 1]
      "temp" 1 30 1 []).2.2.1 rfl (by rw [hf]; norm_num) ?_
    rw [hf]
    decide
  · obtain ⟨a, h1, h2, -⟩ :=
      (c8_trend_computation [] "cpu" 0 0 1 [(0 : Rat), 20]).2.2.2.2 (by norm_num)
    exact ⟨a, h1, h2⟩

/-- **C9 counterexample.**  A strictly increasing two-sample CPU series whose
overall rise (0.01) is below the 0.1 deadband: the trend query reports
"stable", not "increasing", refuting the claim that every monotonically
increasing series of at least 2 samples reports "increasing". -/
theorem c9_counterexample :
    ((0 : Rat) < 1/100) ∧
    (∃ a, getResourceTrend [mkSnap 0 0, mkSnap 10 (1/100)] "cpu" 10 30 1 = .ok a ∧
      a.trend = "stable" ∧ 0 < a.change_rate ∧ a.trend ≠ "increasing") := by
  have hf : [mkSnap 0 0, mkSnap 10 (1/100)].filter
      (fun s => (10 : Rat) - 30 * 60 ≤ s.timestamp) =
      [mkSnap 0 0, mkSnap 10 (1/100)] := by
    norm_num [mkSnap, defaultSnapshot, List.filter]
  have hext : extractValues "cpu" [mkSnap 0 0, mkSnap 10 (1/100)] =
      some [(0 : Rat), 1/100] := by
    rw [extractValues_cpu]
    simp [mkSnap, defaultSnapshot]
  have hred : getResourceTrend [mkSnap 0 0, mkSnap 10 (1/100)] "cpu" 10 30 1 =
      computeTrend [(0 : Rat), 1/100] 1 := by
    rw [getResourceTrend, if_neg (by exact Bool.false_ne_true)]
    show (if ([mkSnap 0 0, mkSnap 10 (1/100)].filter
        (fun s => (10 : Rat) - 30 * 60 ≤ s.timestamp)).length < 2
      then TrendResult.insufficientData
      else match extractValues "cpu" ([mkSnap 0 0, mkSnap 10 (1/100)].filter
          (fun s => (10 : Rat) - 30 * 60 ≤ s.timestamp)) with
        | none => TrendResult.unsupportedType "cpu"
        | some resource_values => computeTrend resource_values 1) = _
    rw [hf, if_neg (by norm_num), hext]
  refine ⟨by norm_num, ?_⟩
  refine ⟨⟨"stable", 1/200, 1/100, 301/100, 1/200, 1/100, 0, 1/100, 2⟩,
    ?_, rfl, by norm_num, by decide⟩
  rw [hred]
  norm_num [computeTrend, TrendAnalysis.mk.injEq, Rat.floor_def']
  intro h
  rw [abs_of_nonneg (by norm_num : (0:ℚ) ≤ 1/200)] at h
  norm_num at h

/-- **C9 (amended).**  For a window series of at least 2 samples whose metric
extraction succeeds (always the case for cpu/memory/disk; for the gpu metric
only when every window snapshot has truthy gpu data) that is monotonically
increasing AND whose overall rise is at least the 0.1 deadband per sample
(`0.1 * sampleCount ≤ lastValue − firstValue`, i.e. `changeRate ≥ 0.1`), the
trend query reports "increasing" with `changeRate > 0`; for such a flat
(constant) series it reports "stable". -/
theorem c9_trend_direction (hist : List ResourceSnapshot)
    (resource_type : String) (now minutes interval : Rat) (v0 v1 : Rat)
    (vs : List Rat)
    (hvals : extractValues resource_type
      (hist.filter (fun s => now - minutes * 60 ≤ s.timestamp)) =
        some (v0 :: v1 :: vs)) :
    (List.Chain' (· < ·) (v0 :: v1 :: vs) →
      (1/10 : Rat) * ((v0 :: v1 :: vs).length : Rat) ≤
        (v0 :: v1 :: vs).getLast (by simp) - v0 →
      ∃ a, getResourceTrend hist resource_type now minutes interval = .ok a ∧
        a.trend = "increasing" ∧ 0 < a.change_rate) ∧
    ((∀ v ∈ v0 :: v1 :: vs, v = v0) →
      ∃ a, getResourceTrend hist resource_type now minutes interval = .ok a ∧
        a.trend = "stable" ∧ a.change_rate = 0) := by
  have hne : hist.isEmpty = false := by
    cases hist with
    | nil => simp [extractValues] at hvals
    | cons a t => rfl
  have hlen2 : (v0 :: v1 :: vs).length =
      (hist.filter (fun s => now - minutes * 60 ≤ s.timestamp)).length :=
    extractValues_length resource_type _ _ hvals
  have hge : ¬ (hist.filter
      (fun s => now - minutes * 60 ≤ s.timestamp)).length < 2 := by
    rw [← hlen2]
    simp only [List.length_cons]
    omega
  have hred : getResourceTrend hist resource_type now minutes interval =
      computeTrend (v0 :: v1 :: vs) interval := by
    rw [getResourceTrend, if_neg (by rw [hne]; exact Bool.false_ne_true)]
    show (if (hist.filter (fun s => now - minutes * 60 ≤ s.timestamp)).length < 2
      then TrendResult.insufficientData
      else match extractValues resource_type
          (hist.filter (fun s => now - minutes * 60 ≤ s.timestamp)) with
        | none => TrendResult.unsupportedType resource_type
        | some resource_values => computeTrend resource_values interval) = _
    rw [if_neg hge, hvals]
  have hlenpos : (0 : Rat) < ((v0 :: v1 :: vs).length : Rat) := by
    have : 0 < (v0 :: v1 :: vs).length := by simp
    exact_mod_cast this
  constructor
  · intro _hmono hrise
    have hrate : (1/10 : Rat) ≤
        ((v0 :: v1 :: vs).getLast (by simp) - v0) /
          ((v0 :: v1 :: vs).length : Rat) := by
      rw [le_div_iff₀ hlenpos]
      linarith [hrise]
    have hpos : (0 : Rat) <
        ((v0 :: v1 :: vs).getLast (by simp) - v0) /
          ((v0 :: v1 :: vs).length : Rat) :=
      lt_of_lt_of_le (by norm_num) hrate
    have habs : ¬ (|((v0 :: v1 :: vs).getLast (by simp) - v0) /
        ((v0 :: v1 :: vs).length : Rat)| < 1/10) := by
      rw [not_lt]
      exact le_trans hrate (le_abs_self _)
    refine ⟨_, hred.trans rfl, ?_, hpos⟩
    show (if |((v0 :: v1 :: vs).getLast (by simp) - v0) /
          ((v0 :: v1 :: vs).length : Rat)| < 1/10 then "stable"
      else if ((v0 :: v1 :: vs).getLast (by simp) - v0) /
          ((v0 :: v1 :: vs).length : Rat) > 0 then "increasing"
      else "decreasing") = "increasing"
    rw [if_neg habs, if_pos hpos]
  · intro hflat
    have hLv : (v0 :: v1 :: vs).getLast (by simp) = v0 :=
      hflat _ (List.getLast_mem _)
    have hrate0 : ((v0 :: v1 :: vs).getLast (by simp) - v0) /
        ((v0 :: v1 :: vs).length : Rat) = 0 := by
      rw [hLv]; simp
    refine ⟨_, hred.trans rfl, ?_, hrate0⟩
    show (if |((v0 :: v1 :: vs).getLast (by simp) - v0) /
          ((v0 :: v1 :: vs).length : Rat)| < 1/10 then "stable"
      else if ((v0 :: v1 :: vs).getLast (by simp) - v0) /
          ((v0 :: v1 :: vs).length : Rat) > 0 then "increasing"
      else "decreasing") = "stable"
    rw [hrate0]
    norm_num

theorem c9_trend_direction_witness :
    (∃ a, getResourceTrend [mkSnap 0 0, mkSnap 10 50] "cpu" 10 30 1 = .ok a ∧
      a.trend = "increasing" ∧ 0 < a.change_rate) ∧
    (∃ a, getResourceTrend [mkSnap 0 7, mkSnap 10 7] "cpu" 10 30 1 = .ok a ∧
      a.trend = "stable" ∧ a.change_rate = 0) := by
  constructor
  · refine (c9_trend_direction [mkSnap 0 0, mkSnap 10 50] "cpu" 10 30 1 0 50 []
      ?_).1 ?_ ?_
    · have hf : [mkSnap 0 0, mkSnap 10 50].filter
          (fun s => (10 : Rat) - 30 * 60 ≤ s.timestamp) =
          [mkSnap 0 0, mkSnap 10 50] := by
        norm_num [mkSnap, defaultSnapshot, List.filter]
      rw [hf, extractValues_cpu]
      simp [mkSnap, defaultSnapshot]
    · simp only [List.chain'_cons, List.chain'_singleton, and_true]
      norm_num
    · norm_num [List.getLast]
  · refine (c9_trend_direction [mkSnap 0 7, mkSnap 10 7] "cpu" 10 30 1 7 7 []
      ?_).2 ?_
    · have hf : [mkSnap 0 7, mkSnap 10 7].filter
          (fun s => (10 : Rat) - 30 * 60 ≤ s.timestamp) =
          [mkSnap 0 7, mkSnap 10 7] := by
        norm_num [mkSnap, defaultSnapshot, List.filter]
      rw [hf, extractValues_cpu]
      simp [mkSnap, defaultSnapshot]
    · intro v hv
      rcases List.mem_cons.mp hv with h | h
      · exact h
      · rcases List.mem_cons.mp h with h2 | h2
        · exact h2
        · simp at h2

theorem shouldTrigger_gap {M : Type} (r : NotificationRule M) (now t0 : Rat)
    (d : M) (h0 : r.last_triggered = some t0)
    (h : shouldTrigger r now d = true) :
    t0 + (r.cooldown_minutes : Rat) ≤ now := by
  rw [shouldTrigger, h0] at h
  simp only [Option.isSome_some, Option.get_some, dite_true] at h
  by_cases hen : r.enabled
  · rw [hen] at h
    simp only [Bool.not_true, Bool.false_eq_true, if_false] at h
    by_cases hlt : now - t0 < (r.cooldown_minutes : Rat)
    · rw [if_pos hlt] at h
      exact absurd h Bool.false_ne_true
    · linarith [not_lt.mp hlt]
  · rw [Bool.not_eq_true] at hen
    rw [hen] at h
    simp at h

theorem evalRule_keeps_cooldown {M : Type} (r : NotificationRule M)
    (t : Rat) (d : M) :
    (evalRule r t d).1.cooldown_minutes = r.cooldown_minutes := by
  rw [evalRule]
  by_cases h : shouldTrigger r t d = true
  · rw [if_pos h]; rfl
  · rw [if_neg h]

theorem firedTimes_chain_and_head {M : Type} :
    ∀ (ticks : List (Rat × M)) (r : NotificationRule M),
      List.Chain' (fun a b => a + (r.cooldown_minutes : Rat) ≤ b)
        (firedTimes r ticks) ∧
      (∀ t0, r.last_triggered = some t0 →
        ∀ t ∈ (firedTimes r ticks).head?,
          t0 + (r.cooldown_minutes : Rat) ≤ t) := by
  intro ticks
  induction ticks with
  | nil =>
      intro r
      exact ⟨List.chain'_nil, by intro t0 _ t ht; simp [firedTimes] at ht⟩
  | cons p rest ih =>
      intro r
      obtain ⟨t, d⟩ := p
      by_cases hft : shouldTrigger r t d = true
      · have hfired : firedTimes r ((t, d) :: rest) =
            t :: firedTimes (stampTriggered r t) rest := by
          simp [firedTimes, evalRule, hft]
        obtain ⟨ihc, ihh⟩ := ih (stampTriggered r t)
        have hcool : (stampTriggered r t).cooldown_minutes = r.cooldown_minutes := rfl
        constructor
        · rw [hfired, List.chain'_cons']
          refine ⟨?_, ?_⟩
          · intro y hy
            have := ihh t rfl y hy
            rw [hcool] at this
            exact this
          · rw [hcool] at ihc
            exact ihc
        · intro t0 h0 x hx
          rw [hfired] at hx
          simp only [List.head?_cons, Option.mem_def, Option.some.injEq] at hx
          subst hx
          exact shouldTrigger_gap r t t0 d h0 hft
      · have hnofire : firedTimes r ((t, d) :: rest) = firedTimes r rest := by
          simp [firedTimes, evalRule, hft]
        obtain ⟨ihc, ihh⟩ := ih r
        rw [hnofire]
        exact ⟨ihc, ihh⟩

theorem firedTimes_sublist {M : Type} :
    ∀ (ticks : List (Rat × M)) (r : NotificationRule M),
      (firedTimes r ticks).Sublist (ticks.map Prod.fst) := by
  intro ticks
  induction ticks with
  | nil => intro r; simp [firedTimes]
  | cons p rest ih =>
      intro r
      obtain ⟨t, d⟩ := p
      by_cases hft : shouldTrigger r t d = true
      · have hfired : firedTimes r ((t, d) :: rest) =
            t :: firedTimes (stampTriggered r t) rest := by
          simp [firedTimes, evalRule, hft]
        rw [hfired, List.map_cons]
        exact (ih (stampTriggered r t)).cons₂ t
      · have hnofire : firedTimes r ((t, d) :: rest) = firedTimes r rest := by
          simp [firedTimes, evalRule, hft]
        rw [hnofire, List.map_cons]
        exact (ih r).cons t

theorem pairwise_gap_of_chain (C : Rat) :
    ∀ l : List Rat, List.Pairwise (· ≤ ·) l →
      List.Chain' (fun a b => a + C ≤ b) l →
      List.Pairwise (fun a b => a + C ≤ b) l := by
  intro l
  induction l with
  | nil => intro _ _; exact List.Pairwise.nil
  | cons a t ih =>
      intro hs hc
      rcases t with _ | ⟨b, t2⟩
      · exact List.pairwise_cons.mpr ⟨by simp, List.Pairwise.nil⟩
      · rw [List.chain'_cons] at hc
        rw [List.pairwise_cons] at hs ⊢
        refine ⟨?_, ih hs.2 hc.2⟩
        intro x hx
        rcases List.mem_cons.mp hx with hxb | hxt
        · rw [hxb]
          exact hc.1
        · have hbx : b ≤ x := (List.pairwise_cons.mp hs.2).1 x hxt
          exact le_trans hc.1 hbx

/-- **C6.**  A rule that fired at `t0` is skipped at every later evaluation
time `t` with `t − t0 < cooldown`; consequently, along any tick sequence with
nondecreasing clock on which evaluation runs every tick, no rule ever fires
twice within its cooldown interval: any two firing times are at least the
cooldown apart. -/
theorem c6_cooldown_no_refire {M : Type} (r : NotificationRule M)
    (now t0 : Rat) (d : M) (ticks : List (Rat × M)) :
    (r.last_triggered = some t0 → now - t0 < (r.cooldown_minutes : Rat) →
      shouldTrigger r now d = false) ∧
    (List.Pairwise (· ≤ ·) (ticks.map Prod.fst) →
      List.Pairwise (fun a b => a + (r.cooldown_minutes : Rat) ≤ b)
        (firedTimes r ticks)) := by
  constructor
  · intro h0 hlt
    cases hen : r.enabled <;>
      simp [shouldTrigger, h0, hen, hlt]
  · intro hsorted
    exact pairwise_gap_of_chain _ _
      (hsorted.sublist (firedTimes_sublist ticks r))
      (firedTimes_chain_and_head ticks r).1

theorem c6_cooldown_no_refire_witness :
    shouldTrigger { alwaysRule with last_triggered := some 0 } 3 () = false ∧
    List.Pairwise
      (fun a b => a + (alwaysRule.cooldown_minutes : Rat) ≤ b)
      (firedTimes alwaysRule [((0 : Rat), ()), (1, ()), (5, ()), (6, ())]) :=
  ⟨(c6_cooldown_no_refire { alwaysRule with last_triggered := some 0 } 3 0 () []).1
      rfl (by norm_num [alwaysRule]),
   (c6_cooldown_no_refire alwaysRule 0 0 ()
      [((0 : Rat), ()), (1, ()), (5, ()), (6, ())]).2
      (by norm_num [List.pairwise_cons])⟩

theorem dropWhile_dropWhile_self (p : α → Bool) (l : List α) :
    (l.dropWhile p).dropWhile p = l.dropWhile p := by
  induction l with
  | nil => rfl
  | cons a t ih =>
      by_cases h : p a
      · rw [List.dropWhile_cons, if_pos h]; exact ih
      · rw [List.dropWhile_cons, if_neg h, List.dropWhile_cons, if_neg h]

theorem dropWhile_eq_self_of_prefix (p : α → Bool) {l₁ l₂ : List α}
    (hp : l₁ <+: l₂) (h : l₂.dropWhile p = l₂) :
    l₁.dropWhile p = l₁ := by
  cases l₁ with
  | nil => rfl
  | cons a t =>
      have hpa : ¬ p a = true := by
        obtain ⟨r, hr⟩ := hp
        intro hpa
        rw [← hr, List.cons_append, List.dropWhile_cons, if_pos hpa] at h
        have hlen := congrArg List.length h
        have hle : ((t ++ r).dropWhile p).length ≤ (t ++ r).length :=
          (List.dropWhile_suffix p).sublist.length_le
        rw [List.length_cons] at hlen
        omega
      rw [List.dropWhile_cons, if_neg hpa]

theorem pyStripList_idem (l : List Char) :
    pyStripList (pyStripList l) = pyStripList l := by
  unfold pyStripList
  set x := l.dropWhile pySpace with hx
  set y := (x.reverse.dropWhile pySpace).reverse with hy
  have hxfix : x.dropWhile pySpace = x := by
    rw [hx]; exact dropWhile_dropWhile_self pySpace l
  have hysuf : y.reverse <:+ x.reverse := by
    rw [hy, List.reverse_reverse]
    exact List.dropWhile_suffix pySpace
  have hypre : y <+: x := List.reverse_suffix.mp hysuf
  have hyfix : y.dropWhile pySpace = y :=
    dropWhile_eq_self_of_prefix pySpace hypre hxfix
  have hyrev : y.reverse = x.reverse.dropWhile pySpace := by
    rw [hy, List.reverse_reverse]
  rw [hyfix, hyrev, dropWhile_dropWhile_self]

theorem pyStrip_idem (s : String) : pyStrip (pyStrip s) = pyStrip s := by
  unfold pyStrip
  exact congrArg String.mk (pyStripList_idem s.data)

theorem pyInt_intCast (k : Int) : pyInt ((k : Rat)) = k := by
  unfold pyInt
  by_cases h : ((k : Rat) < 0)
  · rw [if_pos h, Int.ceil_intCast]
  · rw [if_neg h, Int.floor_intCast]

theorem cleanFloat_bounds (name : ParamName) (pv : Option Rat)
    (minv maxv dflt : Rat) (hmm : minv ≤ maxv) (hd1 : minv ≤ dflt)
    (hd2 : dflt ≤ maxv) :
    minv ≤ (cleanFloat name pv minv maxv dflt).value ∧
    (cleanFloat name pv minv maxv dflt).value ≤ maxv := by
  cases pv with
  | none => exact ⟨hd1, hd2⟩
  | some v =>
      simp only [cleanFloat]
      by_cases h1 : v < minv
      · rw [if_pos h1]; exact ⟨le_refl _, hmm⟩
      · rw [if_neg h1]
        by_cases h2 : v > maxv
        · rw [if_pos h2]; exact ⟨hmm, le_refl _⟩
        · rw [if_neg h2]; exact ⟨not_lt.mp h1, not_lt.mp h2⟩

theorem cleanFloat_inrange (name : ParamName) (w minv maxv dflt : Rat)
    (h1 : minv ≤ w) (h2 : w ≤ maxv) :
    cleanFloat name (some w) minv maxv dflt = { value := w } := by
  simp only [cleanFloat]
  rw [if_neg (not_lt.mpr h1), if_neg (not_lt.mpr h2)]

theorem cleanIntParam_bounds (name : ParamName) (pv : Option Rat)
    (minv maxv dflt : Int) (hmm : minv ≤ maxv) (hd1 : minv ≤ dflt)
    (hd2 : dflt ≤ maxv) :
    minv ≤ (cleanIntParam name pv minv maxv dflt).value ∧
    (cleanIntParam name pv minv maxv dflt).value ≤ maxv := by
  cases pv with
  | none => exact ⟨hd1, hd2⟩
  | some v =>
      simp only [cleanIntParam]
      by_cases h1 : pyInt v < minv
      · rw [if_pos h1]; exact ⟨le_refl _, hmm⟩
      · rw [if_neg h1]
        by_cases h2 : pyInt v > maxv
        · rw [if_pos h2]; exact ⟨hmm, le_refl _⟩
        · rw [if_neg h2]; exact ⟨not_lt.mp h1, not_lt.mp h2⟩

theorem cleanIntParam_inrange (name : ParamName) (w : Int) (minv maxv dflt : Int)
    (h1 : minv ≤ w) (h2 : w ≤ maxv) :
    cleanIntParam name (some ((w : Int) : Rat)) minv maxv dflt = { value := w } := by
  simp only [cleanIntParam, pyInt_intCast]
  rw [if_neg (not_lt.mpr h1), if_neg (not_lt.mpr h2)]

theorem pyMinByDistance_foldl_spec (v : Int) (rest : List Int) : ∀ a : Int,
    rest.foldl (fun best x => if |x - v| < |best - v| then x else best) a ∈ a :: rest ∧
    ∀ x ∈ a :: rest,
      |rest.foldl (fun best x => if |x - v| < |best - v| then x else best) a - v| ≤
        |x - v| := by
  induction rest with
  | nil =>
      intro a
      refine ⟨by simp, ?_⟩
      intro x hx
      rcases List.mem_cons.mp hx with h | h
      · rw [h]
        exact le_refl (|a - v|)
      · simp at h
  | cons b t ih =>
      intro a
      rw [List.foldl_cons]
      by_cases hb : |b - v| < |a - v|
      · rw [if_pos hb]
        obtain ⟨hmem, hall⟩ := ih b
        refine ⟨?_, ?_⟩
        · rcases List.mem_cons.mp hmem with h | h
          · rw [h]
            exact List.mem_cons.mpr (Or.inr (List.mem_cons.mpr (Or.inl rfl)))
          · exact List.mem_cons.mpr (Or.inr (List.mem_cons.mpr (Or.inr h)))
        · intro x hx
          rcases List.mem_cons.mp hx with h | h
          · rw [h]
            exact le_trans (hall b (List.mem_cons.mpr (Or.inl rfl))) (le_of_lt hb)
          · rcases List.mem_cons.mp h with h2 | h2
            · rw [h2]
              exact hall b (List.mem_cons.mpr (Or.inl rfl))
            · exact hall x (List.mem_cons.mpr (Or.inr h2))
      · rw [if_neg hb]
        obtain ⟨hmem, hall⟩ := ih a
        refine ⟨?_, ?_⟩
        · rcases List.mem_cons.mp hmem with h | h
          · rw [h]
            exact List.mem_cons.mpr (Or.inl rfl)
          · exact List.mem_cons.mpr (Or.inr (List.mem_cons.mpr (Or.inr h)))
        · intro x hx
          rcases List.mem_cons.mp hx with h | h
          · rw [h]
            exact hall a (List.mem_cons.mpr (Or.inl rfl))
          · rcases List.mem_cons.mp h with h2 | h2
            · rw [h2]
              exact le_trans (hall a (List.mem_cons.mpr (Or.inl rfl)))
                (not_lt.mp hb)
            · exact hall x (List.mem_cons.mpr (Or.inr h2))

theorem pyMinByDistance_spec (v : Int) (a : Int) (rest : List Int) :
    pyMinByDistance v (a :: rest) ∈ a :: rest ∧
    ∀ x ∈ a :: rest, |pyMinByDistance v (a :: rest) - v| ≤ |x - v| := by
  unfold pyMinByDistance
  exact pyMinByDistance_foldl_spec v rest a

theorem cleanSampleRate_mem (pv : Option Rat) :
    (cleanSampleRate pv).value ∈ allowedSampleRates := by
  cases pv with
  | none => decide
  | some v =>
      simp only [cleanSampleRate]
      by_cases h : allowedSampleRates.contains (pyInt v) = true
      · rw [if_pos h]
        exact List.mem_of_elem_eq_true h
      · rw [if_neg h]
        exact (pyMinByDistance_spec (pyInt v) 16000 [22050, 32000, 44100, 48000]).1

theorem vp_cleaned (p : ParamsIn) :
    (validate_parameters p).cleaned_params =
      { duration := (cleanFloat .duration p.duration 1 30 10).value
        guidance_scale := (cleanFloat .guidance_scale p.guidance_scale 1 10 3).value
        temperature := (cleanFloat .temperature p.temperature (1/10) 2 1).value
        top_k := (cleanIntParam .top_k p.top_k 1 1000 250).value
        top_p := (cleanFloat .top_p p.top_p 0 1 0).value
        sample_rate := (cleanSampleRate p.sample_rate).value
        output_format :=
          if supportedFormats.contains (p.output_format.getD "wav")
          then p.output_format.getD "wav" else "wav"
        prompt :=
          if pyStrip (p.prompt.getD "") ≠ "" then some (pyStrip (p.prompt.getD ""))
          else none } := rfl

theorem vp_warnings (p : ParamsIn) :
    (validate_parameters p).warnings =
      [(cleanFloat .duration p.duration 1 30 10).warning,
       (cleanFloat .guidance_scale p.guidance_scale 1 10 3).warning,
       (cleanFloat .temperature p.temperature (1/10) 2 1).warning,
       (cleanIntParam .top_k p.top_k 1 1000 250).warning,
       (cleanFloat .top_p p.top_p 0 1 0).warning,
       (cleanSampleRate p.sample_rate).warning].filterMap id
        ++ (if supportedFormats.contains (p.output_format.getD "wav") then []
            else [ParamWarning.unsupportedFormat (p.output_format.getD "wav")]) := rfl

theorem vp_defaults (p : ParamsIn) :
    (validate_parameters p).applied_defaults =
      [(ParamName.duration, (cleanFloat .duration p.duration 1 30 10).defaulted),
       (.guidance_scale, (cleanFloat .guidance_scale p.guidance_scale 1 10 3).defaulted),
       (.temperature, (cleanFloat .temperature p.temperature (1/10) 2 1).defaulted),
       (.top_k, (cleanIntParam .top_k p.top_k 1 1000 250).defaulted),
       (.top_p, (cleanFloat .top_p p.top_p 0 1 0).defaulted),
       (.sample_rate, (cleanSampleRate p.sample_rate).defaulted)].filterMap
        (fun nb => if nb.2 then some nb.1 else none) := rfl

theorem vp_valid (p : ParamsIn) :
    (validate_parameters p).valid = decide (pyStrip (p.prompt.getD "") ≠ "") := rfl

theorem mem_filterMap_id {α : Type} {l : List (Option α)} {x : α}
    (hx : some x ∈ l) : x ∈ l.filterMap id :=
  List.mem_filterMap.mpr ⟨some x, hx, rfl⟩

theorem cleanSampleRate_inAllowed (w : Int) (h : w ∈ allowedSampleRates) :
    cleanSampleRate (some ((w : Int) : Rat)) = { value := w } := by
  simp only [cleanSampleRate, pyInt_intCast]
  rw [if_pos (List.elem_eq_true_of_mem h)]

theorem pyStrip_empty : pyStrip "" = "" := rfl

theorem format_idem (f : String) :
    (if supportedFormats.contains (if supportedFormats.contains f then f else "wav") = true
      then (if supportedFormats.contains f then f else "wav") else "wav")
      = (if supportedFormats.contains f then f else "wav") := by
  by_cases hf : supportedFormats.contains f = true
  · simp only [hf, eq_self_iff_true, if_true]
  · rw [Bool.not_eq_true] at hf
    simp only [hf, Bool.false_eq_true, if_false]
    simp

theorem prompt_idem (s : String) :
    (if pyStrip (((if pyStrip s ≠ "" then some (pyStrip s) else none) :
          Option String).getD "") ≠ ""
      then some (pyStrip (((if pyStrip s ≠ "" then some (pyStrip s) else none) :
          Option String).getD ""))
      else none)
      = (if pyStrip s ≠ "" then some (pyStrip s) else none) := by
  by_cases hp : pyStrip s = ""
  · simp [hp, pyStrip_empty]
  · simp [hp, pyStrip_idem]

theorem validate_parameters_idem (p : ParamsIn) :
    (validate_parameters
      (validate_parameters p).cleaned_params.toParams).cleaned_params =
      (validate_parameters p).cleaned_params := by
  rw [vp_cleaned (validate_parameters p).cleaned_params.toParams, vp_cleaned p]
  simp only [CleanedParams.toParams, Option.getD_some]
  obtain ⟨hdu1, hdu2⟩ := cleanFloat_bounds .duration p.duration 1 30 10
    (by norm_num) (by norm_num) (by norm_num)
  obtain ⟨hgs1, hgs2⟩ := cleanFloat_bounds .guidance_scale p.guidance_scale 1 10 3
    (by norm_num) (by norm_num) (by norm_num)
  obtain ⟨hte1, hte2⟩ := cleanFloat_bounds .temperature p.temperature (1/10) 2 1
    (by norm_num) (by norm_num) (by norm_num)
  obtain ⟨htk1, htk2⟩ := cleanIntParam_bounds .top_k p.top_k 1 1000 250
    (by norm_num) (by norm_num) (by norm_num)
  obtain ⟨htp1, htp2⟩ := cleanFloat_bounds .top_p p.top_p 0 1 0
    (by norm_num) (by norm_num) (by norm_num)
  have hsr := cleanSampleRate_mem p.sample_rate
  rw [cleanFloat_inrange _ _ _ _ _ hdu1 hdu2,
    cleanFloat_inrange _ _ _ _ _ hgs1 hgs2,
    cleanFloat_inrange _ _ _ _ _ hte1 hte2,
    cleanIntParam_inrange _ _ _ _ _ htk1 htk2,
    cleanFloat_inrange _ _ _ _ _ htp1 htp2,
    cleanSampleRate_inAllowed _ hsr,
    format_idem (p.output_format.getD "wav"),
    prompt_idem (p.prompt.getD "")]

theorem cleanFloat_claim (name : ParamName) (v minv maxv dflt : Rat)
    (hmm : minv ≤ maxv) :
    (cleanFloat name (some v) minv maxv dflt).value =
      (if v < minv then minv else if v > maxv then maxv else v) ∧
    (v < minv →
      (cleanFloat name (some v) minv maxv dflt).warning = some (.belowMin name)) ∧
    (maxv < v →
      (cleanFloat name (some v) minv maxv dflt).warning = some (.aboveMax name)) := by
  refine ⟨?_, ?_, ?_⟩
  · simp only [cleanFloat]
    by_cases h1 : v < minv
    · rw [if_pos h1, if_pos h1]
    · rw [if_neg h1, if_neg h1]
      by_cases h2 : v > maxv
      · rw [if_pos h2, if_pos h2]
      · rw [if_neg h2, if_neg h2]
  · intro h
    simp only [cleanFloat]
    rw [if_pos h]
  · intro h
    have h1 : ¬ v < minv := not_lt.mpr (le_of_lt (lt_of_le_of_lt hmm h))
    simp only [cleanFloat]
    rw [if_neg h1, if_pos h]

theorem cleanIntParam_claim (name : ParamName) (v : Rat) (minv maxv dflt : Int)
    (hmm : minv ≤ maxv) :
    (cleanIntParam name (some v) minv maxv dflt).value =
      (if pyInt v < minv then minv else if pyInt v > maxv then maxv else pyInt v) ∧
    (pyInt v < minv →
      (cleanIntParam name (some v) minv maxv dflt).warning = some (.belowMin name)) ∧
    (maxv < pyInt v →
      (cleanIntParam name (some v) minv maxv dflt).warning = some (.aboveMax name)) := by
  refine ⟨?_, ?_, ?_⟩
  · simp only [cleanIntParam]
    by_cases h1 : pyInt v < minv
    · rw [if_pos h1, if_pos h1]
    · rw [if_neg h1, if_neg h1]
      by_cases h2 : pyInt v > maxv
      · rw [if_pos h2, if_pos h2]
      · rw [if_neg h2, if_neg h2]
  · intro h
    simp only [cleanIntParam]
    rw [if_pos h]
  · intro h
    have h1 : ¬ pyInt v < minv := not_lt.mpr (le_of_lt (lt_of_le_of_lt hmm h))
    simp only [cleanIntParam]
    rw [if_neg h1, if_pos h]

theorem cleanSampleRate_some_in (v : Rat)
    (h : allowedSampleRates.contains (pyInt v) = true) :
    cleanSampleRate (some v) = { value := pyInt v } := by
  simp only [cleanSampleRate]
  rw [if_pos h]

theorem cleanSampleRate_some_out (v : Rat)
    (h : ¬ allowedSampleRates.contains (pyInt v) = true) :
    cleanSampleRate (some v) =
      { value := pyMinByDistance (pyInt v) allowedSampleRates
        warning := some (.unsupportedSampleRate (pyInt v)
          (pyMinByDistance (pyInt v) allowedSampleRates)) } := by
  simp only [cleanSampleRate]
  rw [if_neg h]

theorem mem_vp_warnings (p : ParamsIn) (w : ParamWarning)
    (h : (cleanFloat .duration p.duration 1 30 10).warning = some w ∨
         (cleanFloat .guidance_scale p.guidance_scale 1 10 3).warning = some w ∨
         (cleanFloat .temperature p.temperature (1/10) 2 1).warning = some w ∨
         (cleanIntParam .top_k p.top_k 1 1000 250).warning = some w ∨
         (cleanFloat .top_p p.top_p 0 1 0).warning = some w ∨
         (cleanSampleRate p.sample_rate).warning = some w) :
    w ∈ (validate_parameters p).warnings := by
  rw [vp_warnings]
  refine List.mem_append_left _ (mem_filterMap_id ?_)
  rcases h with h|h|h|h|h|h <;> rw [← h] <;> simp

/-- **C5.**  Parameter validation clamps every out-of-range numeric parameter
(duration, guidance_scale, temperature, top_k, top_p) to the nearest
documented bound and records a warning instead of rejecting (the `valid`
verdict depends only on the prompt), fills every missing field with its
documented default, snaps an unsupported sample rate to the nearest supported
value and an unsupported output format to the supported default `"wav"` with
a warning; and validating the cleaned result of a validation changes no
value. -/
theorem c5_validation_clamp_default_snap_idempotent (p : ParamsIn) :
    (∀ v, p.duration = some v →
      (validate_parameters p).cleaned_params.duration =
        (if v < 1 then 1 else if v > 30 then 30 else v) ∧
      (v < 1 → ParamWarning.belowMin .duration ∈ (validate_parameters p).warnings) ∧
      (30 < v → ParamWarning.aboveMax .duration ∈ (validate_parameters p).warnings)) ∧
    (∀ v, p.guidance_scale = some v →
      (validate_parameters p).cleaned_params.guidance_scale =
        (if v < 1 then 1 else if v > 10 then 10 else v) ∧
      (v < 1 → ParamWarning.belowMin .guidance_scale ∈ (validate_parameters p).warnings) ∧
      (10 < v → ParamWarning.aboveMax .guidance_scale ∈ (validate_parameters p).warnings)) ∧
    (∀ v, p.temperature = some v →
      (validate_parameters p).cleaned_params.temperature =
        (if v < 1/10 then 1/10 else if v > 2 then 2 else v) ∧
      (v < 1/10 → ParamWarning.belowMin .temperature ∈ (validate_parameters p).warnings) ∧
      (2 < v → ParamWarning.aboveMax .temperature ∈ (validate_parameters p).warnings)) ∧
    (∀ v, p.top_p = some v →
      (validate_parameters p).cleaned_params.top_p =
        (if v < 0 then 0 else if v > 1 then 1 else v) ∧
      (v < 0 → ParamWarning.belowMin .top_p ∈ (validate_parameters p).warnings) ∧
      (1 < v → ParamWarning.aboveMax .top_p ∈ (validate_parameters p).warnings)) ∧
    (∀ v, p.top_k = some v →
      (validate_parameters p).cleaned_params.top_k =
        (if pyInt v < 1 then 1 else if pyInt v > 1000 then 1000 else pyInt v) ∧
      (pyInt v < 1 → ParamWarning.belowMin .top_k ∈ (validate_parameters p).warnings) ∧
      (1000 < pyInt v → ParamWarning.aboveMax .top_k ∈ (validate_parameters p).warnings)) ∧
    (p.duration = none → (validate_parameters p).cleaned_params.duration = 10 ∧
      ParamName.duration ∈ (validate_parameters p).applied_defaults) ∧
    (p.guidance_scale = none →
      (validate_parameters p).cleaned_params.guidance_scale = 3 ∧
      ParamName.guidance_scale ∈ (validate_parameters p).applied_defaults) ∧
    (p.temperature = none → (validate_parameters p).cleaned_params.temperature = 1 ∧
      ParamName.temperature ∈ (validate_parameters p).applied_defaults) ∧
    (p.top_k = none → (validate_parameters p).cleaned_params.top_k = 250 ∧
      ParamName.top_k ∈ (validate_parameters p).applied_defaults) ∧
    (p.top_p = none → (validate_parameters p).cleaned_params.top_p = 0 ∧
      ParamName.top_p ∈ (validate_parameters p).applied_defaults) ∧
    (p.sample_rate = none →
      (validate_parameters p).cleaned_params.sample_rate = 32000 ∧
      ParamName.sample_rate ∈ (validate_parameters p).applied_defaults) ∧
    (p.output_format = none →
      (validate_parameters p).cleaned_params.output_format = "wav") ∧
    (∀ v, p.sample_rate = some v →
      (pyInt v ∈ allowedSampleRates →
        (validate_parameters p).cleaned_params.sample_rate = pyInt v) ∧
      (pyInt v ∉ allowedSampleRates →
        (validate_parameters p).cleaned_params.sample_rate ∈ allowedSampleRates ∧
        (∀ a ∈ allowedSampleRates,
          |(validate_parameters p).cleaned_params.sample_rate - pyInt v| ≤
            |a - pyInt v|) ∧
        ParamWarning.unsupportedSampleRate (pyInt v)
          ((validate_parameters p).cleaned_params.sample_rate) ∈
            (validate_parameters p).warnings)) ∧
    (∀ f, p.output_format = some f →
      (f ∈ supportedFormats →
        (validate_parameters p).cleaned_params.output_format = f) ∧
      (f ∉ supportedFormats →
        (validate_parameters p).cleaned_params.output_format = "wav" ∧
        "wav" ∈ supportedFormats ∧
        ParamWarning.unsupportedFormat f ∈ (validate_parameters p).warnings)) ∧
    ((validate_parameters p).valid = decide (pyStrip (p.prompt.getD "") ≠ "")) ∧
    ((validate_parameters
        ((validate_parameters p).cleaned_params.toParams)).cleaned_params =
      (validate_parameters p).cleaned_params) := by
  refine ⟨?_, ?_, ?_, ?_, ?_, ?_, ?_, ?_, ?_, ?_, ?_, ?_, ?_, ?_, ?_, ?_⟩
  · intro v hv
    obtain ⟨h1, h2, h3⟩ := cleanFloat_claim .duration v 1 30 10 (by norm_num)
    refine ⟨?_, fun hb => mem_vp_warnings p _ (Or.inl ?_),
      fun ha => mem_vp_warnings p _ (Or.inl ?_)⟩
    · rw [vp_cleaned]
      show (cleanFloat .duration p.duration 1 30 10).value = _
      rw [hv]; exact h1
    · rw [hv]; exact h2 hb
    · rw [hv]; exact h3 ha
  · intro v hv
    obtain ⟨h1, h2, h3⟩ := cleanFloat_claim .guidance_scale v 1 10 3 (by norm_num)
    refine ⟨?_, fun hb => mem_vp_warnings p _ (Or.inr (Or.inl ?_)),
      fun ha => mem_vp_warnings p _ (Or.inr (Or.inl ?_))⟩
    · rw [vp_cleaned]
      show (cleanFloat .guidance_scale p.guidance_scale 1 10 3).value = _
      rw [hv]; exact h1
    · rw [hv]; exact h2 hb
    · rw [hv]; exact h3 ha
  · intro v hv
    obtain ⟨h1, h2, h3⟩ := cleanFloat_claim .temperature v (1/10) 2 1 (by norm_num)
    refine ⟨?_, fun hb => mem_vp_warnings p _ (Or.inr (Or.inr (Or.inl ?_))),
      fun ha => mem_vp_warnings p _ (Or.inr (Or.inr (Or.inl ?_)))⟩
    · rw [vp_cleaned]
      show (cleanFloat .temperature p.temperature (1/10) 2 1).value = _
      rw [hv]; exact h1
    · rw [hv]; exact h2 hb
    · rw [hv]; exact h3 ha
  · intro v hv
    obtain ⟨h1, h2, h3⟩ := cleanFloat_claim .top_p v 0 1 0 (by norm_num)
    refine ⟨?_,
      fun hb => mem_vp_warnings p _ (Or.inr (Or.inr (Or.inr (Or.inr (Or.inl ?_))))),
      fun ha => mem_vp_warnings p _ (Or.inr (Or.inr (Or.inr (Or.inr (Or.inl ?_)))))⟩
    · rw [vp_cleaned]
      show (cleanFloat .top_p p.top_p 0 1 0).value = _
      rw [hv]; exact h1
    · rw [hv]; exact h2 hb
    · rw [hv]; exact h3 ha
  · intro v hv
    obtain ⟨h1, h2, h3⟩ := cleanIntParam_claim .top_k v 1 1000 250 (by norm_num)
    refine ⟨?_,
      fun hb => mem_vp_warnings p _ (Or.inr (Or.inr (Or.inr (Or.inl ?_)))),
      fun ha => mem_vp_warnings p _ (Or.inr (Or.inr (Or.inr (Or.inl ?_))))⟩
    · rw [vp_cleaned]
      show (cleanIntParam .top_k p.top_k 1 1000 250).value = _
      rw [hv]; exact h1
    · rw [hv]; exact h2 hb
    · rw [hv]; exact h3 ha
  · intro hd
    refine ⟨?_, ?_⟩
    · rw [vp_cleaned]
      show (cleanFloat .duration p.duration 1 30 10).value = 10
      rw [hd]
      rfl
    · rw [vp_defaults, hd]
      exact List.mem_filterMap.mpr
        ⟨(.duration, (cleanFloat .duration none 1 30 10).defaulted),
          List.mem_cons.mpr (Or.inl rfl), rfl⟩
  · intro hd
    refine ⟨?_, ?_⟩
    · rw [vp_cleaned]
      show (cleanFloat .guidance_scale p.guidance_scale 1 10 3).value = 3
      rw [hd]
      rfl
    · rw [vp_defaults, hd]
      exact List.mem_filterMap.mpr
        ⟨(.guidance_scale, (cleanFloat .guidance_scale none 1 10 3).defaulted),
          List.mem_cons.mpr (Or.inr (List.mem_cons.mpr (Or.inl rfl))), rfl⟩
  · intro hd
    refine ⟨?_, ?_⟩
    · rw [vp_cleaned]
      show (cleanFloat .temperature p.temperature (1/10) 2 1).value = 1
      rw [hd]
      rfl
    · rw [vp_defaults, hd]
      exact List.mem_filterMap.mpr
        ⟨(.temperature, (cleanFloat .temperature none (1/10) 2 1).defaulted),
          by simp, rfl⟩
  · intro hd
    refine ⟨?_, ?_⟩
    · rw [vp_cleaned]
      show (cleanIntParam .top_k p.top_k 1 1000 250).value = 250
      rw [hd]
      rfl
    · rw [vp_defaults, hd]
      exact List.mem_filterMap.mpr
        ⟨(.top_k, (cleanIntParam .top_k none 1 1000 250).defaulted),
          by simp, rfl⟩
  · intro hd
    refine ⟨?_, ?_⟩
    · rw [vp_cleaned]
      show (cleanFloat .top_p p.top_p 0 1 0).value = 0
      rw [hd]
      rfl
    · rw [vp_defaults, hd]
      exact List.mem_filterMap.mpr
        ⟨(.top_p, (cleanFloat .top_p none 0 1 0).defaulted),
          by simp, rfl⟩
  · intro hd
    refine ⟨?_, ?_⟩
    · rw [vp_cleaned]
      show (cleanSampleRate p.sample_rate).value = 32000
      rw [hd]
      rfl
    · rw [vp_defaults, hd]
      exact List.mem_filterMap.mpr
        ⟨(.sample_rate, (cleanSampleRate none).defaulted),
          by simp, rfl⟩
  · intro hd
    rw [vp_cleaned]
    show (if supportedFormats.contains (p.output_format.getD "wav")
      then p.output_format.getD "wav" else "wav") = "wav"
    rw [hd]
    rfl
  · intro v hv
    constructor
    · intro hin
      rw [vp_cleaned]
      show (cleanSampleRate p.sample_rate).value = pyInt v
      rw [hv, cleanSampleRate_some_in v (List.elem_eq_true_of_mem hin)]
    · intro hout
      have hnc : ¬ allowedSampleRates.contains (pyInt v) = true := by
        intro hc
        exact hout (List.mem_of_elem_eq_true hc)
      have hval : (validate_parameters p).cleaned_params.sample_rate =
          pyMinByDistance (pyInt v) allowedSampleRates := by
        rw [vp_cleaned]
        show (cleanSampleRate p.sample_rate).value = _
        rw [hv, cleanSampleRate_some_out v hnc]
      obtain ⟨hm, hd⟩ := pyMinByDistance_spec (pyInt v) 16000 [22050, 32000, 44100, 48000]
      refine ⟨?_, ?_, ?_⟩
      · rw [hval]; exact hm
      · intro a ha
        rw [hval]
        exact hd a ha
      · rw [hval]
        refine mem_vp_warnings p _ (Or.inr (Or.inr (Or.inr (Or.inr (Or.inr ?_)))))
        rw [hv, cleanSampleRate_some_out v hnc]
  · intro f hf
    constructor
    · intro hin
      rw [vp_cleaned]
      show (if supportedFormats.contains (p.output_format.getD "wav")
        then p.output_format.getD "wav" else "wav") = f
      rw [hf]
      simp only [Option.getD_some]
      rw [if_pos (List.elem_eq_true_of_mem hin)]
    · intro hout
      have hnc : ¬ supportedFormats.contains f = true := by
        intro hc
        exact hout (List.mem_of_elem_eq_true hc)
      refine ⟨?_, by decide, ?_⟩
      · rw [vp_cleaned]
        show (if supportedFormats.contains (p.output_format.getD "wav")
          then p.output_format.getD "wav" else "wav") = "wav"
        rw [hf]
        simp only [Option.getD_some]
        rw [if_neg hnc]
      · rw [vp_warnings, hf]
        simp only [Option.getD_some]
        rw [if_neg hnc]
        exact List.mem_append_right _ (by simp)
  · exact vp_valid p
  · exact validate_parameters_idem p

theorem c5_validation_witness :
    (validate_parameters
      { duration := some 80
        top_k := some 5000
        sample_rate := some 30000
        output_format := some "ogg"
        prompt := some "  calm piano  " }).cleaned_params.duration = 30 ∧
    ParamWarning.aboveMax .duration ∈
      (validate_parameters
        { duration := some 80
          top_k := some 5000
          sample_rate := some 30000
          output_format := some "ogg"
          prompt := some "  calm piano  " }).warnings ∧
    (validate_parameters
      { duration := some 80
        top_k := some 5000
        sample_rate := some 30000
        output_format := some "ogg"
        prompt := some "  calm piano  " }).cleaned_params.guidance_scale = 3 ∧
    (validate_parameters
      { duration := some 80
        top_k := some 5000
        sample_rate := some 30000
        output_format := some "ogg"
        prompt := some "  calm piano  " }).cleaned_params.sample_rate ∈
      allowedSampleRates ∧
    (validate_parameters
      { duration := some 80
        top_k := some 5000
        sample_rate := some 30000
        output_format := some "ogg"
        prompt := some "  calm piano  " }).cleaned_params.output_format = "wav" ∧
    (validate_parameters
      (validate_parameters
        { duration := some 80
          top_k := some 5000
          sample_rate := some 30000
          output_format := some "ogg"
          prompt := some "  calm piano  " }).cleaned_params.toParams).cleaned_params =
      (validate_parameters
        { duration := some 80
          top_k := some 5000
          sample_rate := some 30000
          output_format := some "ogg"
          prompt := some "  calm piano  " }).cleaned_params := by
  obtain ⟨h1, -, -, -, -, -, h7, -, -, -, -, -, h13, h14, -, h16⟩ :=
    c5_validation_clamp_default_snap_idempotent
      { duration := some 80
        top_k := some 5000
        sample_rate := some 30000
        output_format := some "ogg"
        prompt := some "  calm piano  " }
  have hpy : pyInt (30000 : Rat) = 30000 := by
    rw [show ((30000 : Rat)) = (((30000 : Int) : Rat)) by norm_num, pyInt_intCast]
  have hdur := (h1 80 rfl).1
  norm_num at hdur
  refine ⟨hdur, (h1 80 rfl).2.2 (by norm_num), (h7 rfl).1, ?_, ?_, h16⟩
  · refine ((h13 30000 rfl).2 ?_).1
    rw [hpy]
    decide
  · exact ((h14 "ogg" rfl).2 (by decide)).1

theorem generate_music_accepts (st : MusicGeneratorState) (args : SubmitArgs)
    (request_id : String)
    (h1 : (validate_parameters (submitParams args)).valid = true)
    (h2 : validate_prompt
      ((validate_parameters (submitParams args)).cleaned_params.prompt.getD
        args.prompt) = []) :
    ∃ req : GenerationRequest,
      generate_music st args request_id true =
        .ok (request_id,
          { st with active_requests :=
              st.active_requests ++ [(request_id, req)] }) ∧
      req.status = .pending ∧ req.cancelled = false ∧ req.progress = 0 := by
  unfold generate_music
  dsimp only
  rw [h1]
  simp only [Bool.not_true, Bool.false_eq_true, if_false]
  rw [h2]
  rw [if_neg (fun hc => hc rfl)]
  exact ⟨_, rfl, rfl, rfl, rfl⟩

/-- **C1 (amended).**  `generate_music` imposes no concurrency ceiling and
never rejects a submission as Busy: for EVERY generator state — in
particular states with any number of simultaneously-Processing tasks — a
submission with valid parameters and prompt and a ready model is accepted,
returning a task id and registering a fresh Pending request; the number of
Processing tasks is never consulted. -/
theorem c1_no_concurrency_ceiling (st : MusicGeneratorState) (args : SubmitArgs)
    (request_id : String)
    (h1 : (validate_parameters (submitParams args)).valid = true)
    (h2 : validate_prompt
      ((validate_parameters (submitParams args)).cleaned_params.prompt.getD
        args.prompt) = []) :
    ∃ req : GenerationRequest,
      generate_music st args request_id true =
        .ok (request_id,
          { st with active_requests :=
              st.active_requests ++ [(request_id, req)] }) ∧
      req.status = .pending ∧ req.cancelled = false :=
  match generate_music_accepts st args request_id h1 h2 with
  | ⟨req, heq, hs, hc, _⟩ => ⟨req, heq, hs, hc⟩

theorem happyArgs_valid :
    (validate_parameters (submitParams { prompt := "happy guitar tune" })).valid
      = true := by
  rw [vp_valid]
  have harg : (submitParams { prompt := "happy guitar tune" }).prompt.getD ""
      = "happy guitar tune" := rfl
  rw [harg]
  decide

theorem happyArgs_prompt_ok :
    validate_prompt
      ((validate_parameters
        (submitParams { prompt := "happy guitar tune" })).cleaned_params.prompt.getD
          ({ prompt := "happy guitar tune" } : SubmitArgs).prompt) = [] := by
  have hcp : (validate_parameters
      (submitParams { prompt := "happy guitar tune" })).cleaned_params.prompt
      = some "happy guitar tune" := by
    rw [vp_cleaned]
    show (if pyStrip ((submitParams { prompt := "happy guitar tune" }).prompt.getD "") ≠ ""
      then some (pyStrip ((submitParams { prompt := "happy guitar tune" }).prompt.getD ""))
      else none) = some "happy guitar tune"
    have harg : (submitParams { prompt := "happy guitar tune" }).prompt.getD ""
        = "happy guitar tune" := rfl
    have hps : pyStrip "happy guitar tune" = "happy guitar tune" := by decide
    rw [harg, hps, if_pos (by decide : ("happy guitar tune" : String) ≠ "")]
  rw [hcp]
  simp only [Option.getD_some]
  decide

theorem c1_no_concurrency_ceiling_witness :
    ∃ req : GenerationRequest,
      generate_music busyState { prompt := "happy guitar tune" } "task-2" true =
        .ok ("task-2",
          { busyState with active_requests :=
              busyState.active_requests ++ [("task-2", req)] }) ∧
      req.status = .pending ∧ req.cancelled = false :=
  c1_no_concurrency_ceiling busyState { prompt := "happy guitar tune" } "task-2"
    happyArgs_valid happyArgs_prompt_ok

/-- **C1 counterexample.**  With the default concurrency ceiling the claim
predicts that while 1 task is Processing the next submission is rejected
Busy.  In the code, a state with exactly one Processing task accepts the next
valid submission: `generate_music` returns a task id, not a rejection. -/
theorem c1_counterexample :
    countProcessing busyState = 1 ∧
    ∃ st2, generate_music busyState { prompt := "happy guitar tune" } "task-2" true =
      .ok ("task-2", st2) := by
  refine ⟨rfl, ?_⟩
  obtain ⟨req, heq, -⟩ := generate_music_accepts busyState
    { prompt := "happy guitar tune" } "task-2"
    happyArgs_valid happyArgs_prompt_ok
  exact ⟨_, heq⟩

/-- **C2 (code bug).**  Failing interleaving: `cancel_request` runs after the
task is submitted but before the worker coroutine's first resumption (the
caller of `generate_music` can do this synchronously, before yielding to the
event loop).  `GenerationRequest.cancel` moves the Pending task to the
terminal status Cancelled; the worker's first block then unconditionally
overwrites it with Processing (line 518) and, hitting the pre-inference
checkpoint, returns — the task regresses from a terminal status and finalizes
stuck as Processing. -/
theorem c2_terminal_status_regression :
    GenerationStatus.isTerminal
      (runTask (freshTask pendingRequest) [.cancel]).request.status = true ∧
    (runTask (freshTask pendingRequest) [.cancel]).request.status = .cancelled ∧
    (runTask (freshTask pendingRequest)
      [.cancel, .worker true]).request.status = .processing ∧
    (runTask (freshTask pendingRequest)
      [.cancel, .worker true, .worker true]).request.status = .processing :=
  ⟨rfl, rfl, rfl, rfl⟩

/-- **C4 (code bug).**  For the same interleaving — the cancel flag set
before the worker reaches the pre-inference checkpoint — the Inference Engine
is indeed never invoked (zero engine calls), but the task does NOT end in
terminal status Cancelled: it ends Processing, a non-terminal status. -/
theorem c4_cancel_before_inference :
    (runTask (freshTask pendingRequest) [.cancel]).request.cancelled = true ∧
    (runTask (freshTask pendingRequest)
      [.cancel, .worker true, .worker true]).engine_calls = 0 ∧
    (runTask (freshTask pendingRequest)
      [.cancel, .worker true, .worker true]).request.status ≠ .cancelled ∧
    GenerationStatus.isTerminal
      (runTask (freshTask pendingRequest)
        [.cancel, .worker true, .worker true]).request.status = false := by
  refine ⟨rfl, rfl, ?_, rfl⟩
  decide

theorem managerStep_spec (s : ModelManagerState) (op : ManagerOp)
    (hv : betweenOps s) :
    List.Chain' (fun a b => codeEdge a b = true) (s.status :: (managerStep s op).2) ∧
    (s.status :: (managerStep s op).2).getLast (by simp) =
      (managerStep s op).1.status ∧
    betweenOps (managerStep s op).1 := by
  obtain ⟨hv1, hv2⟩ := hv
  cases op with
  | load i =>
      obtain ⟨s1, s2, s3, s4⟩ := i
      rcases s with ⟨st, em⟩
      simp only at hv1 hv2
      cases st <;> cases s1 <;> cases s2 <;> cases s3 <;> cases s4 <;>
        first
          | exact absurd rfl hv1
          | exact absurd rfl hv2
          | simp_all [managerStep, load_model, codeEdge, claimedEdge, betweenOps,
              List.chain'_cons, List.getLast]
  | unload ok =>
      rcases s with ⟨st, em⟩
      simp only at hv1 hv2
      cases st <;> cases ok <;>
        first
          | exact absurd rfl hv1
          | exact absurd rfl hv2
          | simp_all [managerStep, unload_model, codeEdge, claimedEdge, betweenOps,
              List.chain'_cons, List.getLast]

theorem managerEmits_chain : ∀ (ops : List ManagerOp) (s : ModelManagerState),
    betweenOps s →
    List.Chain' (fun a b => codeEdge a b = true) (s.status :: managerEmits s ops) := by
  intro ops
  induction ops with
  | nil =>
      intro s _
      simp [managerEmits]
  | cons op rest ih =>
      intro s hs
      obtain ⟨hc, hlast, hv⟩ := managerStep_spec s op hs
      have hrec := ih (managerStep s op).1 hv
      show List.Chain' _
        (s.status :: ((managerStep s op).2 ++
          managerEmits (managerStep s op).1 rest))
      rw [← List.cons_append]
      refine List.chain'_append.mpr ⟨hc, (List.chain'_cons'.mp hrec).2, ?_⟩
      intro x hx y hy
      rw [List.getLast?_eq_getLast _ (by simp)] at hx
      simp only [Option.mem_def, Option.some.injEq] at hx
      have hx2 : x = (managerStep s op).1.status := by rw [← hx, hlast]
      rw [hx2]
      exact (List.chain'_cons'.mp hrec).1 y hy

/-- **C3 counterexample.**  From the initial NotLoaded state, a load request
for an unsupported model raises before `status` is ever set to Loading, and
the exception handler then assigns Error: the status goes NotLoaded → Error
directly, a transition outside the documented machine (which enters Error
only from Loading or Unloading). -/
theorem c3_counterexample :
    managerStatusTrace [.load ⟨false, true, true, true⟩] =
      [.not_loaded, .error] ∧
    claimedEdge .not_loaded .error = false ∧
    ¬ List.Chain' (fun a b => claimedEdge a b = true)
      (managerStatusTrace [.load ⟨false, true, true, true⟩]) := by
  refine ⟨rfl, rfl, ?_⟩
  intro hc
  have h2 : managerStatusTrace [.load ⟨false, true, true, true⟩] =
      [.not_loaded, .error] := rfl
  rw [h2, List.chain'_cons] at hc
  exact absurd hc.1 (by decide)

/-- **C3 (amended).**  Every status transition of the model manager follows
the documented state machine EXTENDED with the code's extra edges: a load
failing pre-validation (unsupported model / unmet requirements) enters Error
directly from NotLoaded or from Error without passing Loading, and unload may
also start from Error (Error → Unloading).  Loaded is still reachable only
through Loading, and a retry from Error that passes validation clears the
stored error and re-enters Loading (ending Loaded with no error when the
load succeeds). -/
theorem c3_lifecycle_machine (ops : List ManagerOp) :
    List.Chain' (fun a b => codeEdge a b = true) (managerStatusTrace ops) ∧
    (∀ a b, codeEdge a b = true → b = .loaded → a = .loading) ∧
    (∀ a b, claimedEdge a b = true → codeEdge a b = true) ∧
    (∀ (s : ModelManagerState) (i : LoadInputs),
      s.status = .error → i.supported = true → i.requirements_ok = true →
      i.resources_ok = true → i.load_sync_ok = true →
      load_model s i = ({ status := .loaded, error_message := none },
        [.loading, .loaded])) := by
  refine ⟨?_, ?_, ?_, ?_⟩
  · exact managerEmits_chain ops initManager ⟨by decide, by decide⟩
  · intro a b hab hb
    subst hb
    cases a <;> first | rfl | exact absurd hab (by decide)
  · intro a b h
    simp [codeEdge, h]
  · intro s i hs h1 h2 h3 h4
    unfold load_model
    rw [hs]
    simp [h1, h2, h3, h4]

theorem c3_lifecycle_machine_witness :
    List.Chain' (fun a b => codeEdge a b = true)
      (managerStatusTrace [.load ⟨true, true, true, true⟩, .unload true]) ∧
    codeEdge .not_loaded .loading = true ∧
    load_model ⟨.error, some "load failed"⟩ ⟨true, true, true, true⟩ =
      ({ status := .loaded, error_message := none }, [.loading, .loaded]) :=
  ⟨(c3_lifecycle_machine [.load ⟨true, true, true, true⟩, .unload true]).1,
   (c3_lifecycle_machine []).2.2.1 .not_loaded .loading (by decide),
   (c3_lifecycle_machine []).2.2.2 ⟨.error, some "load failed"⟩
     ⟨true, true, true, true⟩ rfl rfl rfl rfl rfl⟩
